import Mathlib

/-!
Verification development for the medical-RAG triage pipeline
(`medical_rag_system`): a shallow embedding of the query normalizer
(`src/data_collection/data_processor.py`), the query processor
(`src/rag_system/query_processor.py`), the per-disease severity checkers
(`src/dengue_checker.py`, `src/tuberculosis_checker.py`,
`src/viral_flu_checker.py`), the retrieval engine
(`src/rag_system/retrieval_engine.py`) and the response generator
(`src/rag_system/response_generator.py`), together with theorems about the
documented behaviour.

Modelling conventions:
* Python strings are Lean `String`s processed as `List Char`; Python
  `str.lower` on the supported scripts (ASCII plus Devanagari and Bengali,
  which are caseless) is ASCII lowering.
* Python floats are modelled as exact rationals (`ℚ`); every constant in the
  code is a short decimal literal, so this is value-faithful.
* Python `set`/`list(set(...))` results have unspecified element order; they
  are modelled as first-occurrence deduplicated lists and all theorems about
  them are stated up to membership.
* Python regular-expression scans are embedded as executable scanners
  (structural recursion on a character-count fuel so that the kernel can
  evaluate them); each scanner's doc comment names the regex it embeds.
* `re.findall` on a pattern with two capture groups returns tuples; the one
  place the code does this (`emergency_patterns[3]`) makes the subsequent
  `ind.strip()` raise `AttributeError`.  Fallible functions are therefore
  embedded in `Except String`.
* Timestamps (`datetime.now()`) and the assembled free-text bodies of the
  generated responses are outside every claim and are omitted from the
  embedded record types; all decision fields (types, tiers, disclaimers,
  scores, recommendation lists) are embedded in full.
-/

/-- Python `\s` restricted to the ASCII whitespace characters that occur in
the supported inputs (space, tab, newline, carriage return, vertical tab,
form feed). -/
def isPySpace (c : Char) : Bool :=
  c == ' ' || c == '\t' || c == '\n' || c == '\r' || c == '\x0b' || c == '\x0c'

/-- Python `\w` (Unicode word character) restricted to the scripts the
system supports: ASCII alphanumerics, underscore, and the Devanagari
(U+0900-U+097F) and Bengali (U+0980-U+09FF) blocks, which the code also
lists explicitly in its character safelist. -/
def isWordChar (c : Char) : Bool :=
  (c ≥ 'a' && c ≤ 'z') || (c ≥ 'A' && c ≤ 'Z') || (c ≥ '0' && c ≤ '9') ||
  c == '_' || (c.val ≥ 0x900 && c.val ≤ 0x97F) || (c.val ≥ 0x980 && c.val ≤ 0x9FF)

/-- ASCII lowering; faithful to Python `str.lower` on ASCII plus the caseless
Devanagari and Bengali scripts. -/
def pyLower (l : List Char) : List Char := l.map Char.toLower

/-- Python substring containment (`pat in txt`). -/
def subOf (pat : List Char) : List Char → Bool
  | [] => pat.isEmpty
  | c :: cs => pat.isPrefixOf (c :: cs) || subOf pat cs

/-- Helper for `re.sub(r'\s+', ' ', text)`: `prev` records whether the
previous character was whitespace (so a run is emitted as one space). -/
def collapseGo (prev : Bool) : List Char → List Char
  | [] => []
  | c :: cs =>
    if isPySpace c then
      (if prev then collapseGo true cs else ' ' :: collapseGo true cs)
    else c :: collapseGo false cs

/-- `re.sub(r'\s+', ' ', text)`: collapse each whitespace run to one space. -/
def collapseWs (l : List Char) : List Char := collapseGo false l

/-- Python `str.strip()`. -/
def pyStrip (l : List Char) : List Char :=
  ((l.dropWhile isPySpace).reverse.dropWhile isPySpace).reverse

/-- Emit a pending run of `n` copies of `t`: replaced by `repl` when the run
reached the threshold `k`, kept verbatim otherwise. -/
def runEmit (t : Char) (k : Nat) (repl : List Char) (n : Nat) : List Char :=
  if n = 0 then [] else if k ≤ n then repl else List.replicate n t

/-- Helper for `re.sub(r'[t]{k,}', repl, text)`: `pending` counts the `t`s
read so far in the current run. -/
def rmRunsGo (t : Char) (k : Nat) (repl : List Char) (pending : Nat) :
    List Char → List Char
  | [] => runEmit t k repl pending
  | c :: cs =>
    if c == t then rmRunsGo t k repl (pending + 1) cs
    else runEmit t k repl pending ++ c :: rmRunsGo t k repl 0 cs

/-- `re.sub(r'[t]{k,}', repl, text)`: each maximal run of at least `k`
copies of `t` becomes `repl`; shorter runs are kept. -/
def rmRuns (t : Char) (k : Nat) (repl : List Char) (l : List Char) : List Char :=
  rmRunsGo t k repl 0 l

/-- The character safelist of `DataProcessor.clean_text`
(`[^\w\s\.\,\;\:\!\?\-\(\)\%\°\/ऀ-ॿঀ-৿]` is removed). -/
def isSafeChar (c : Char) : Bool :=
  isWordChar c || isPySpace c ||
  c == '.' || c == ',' || c == ';' || c == ':' || c == '!' || c == '?' ||
  c == '-' || c == '(' || c == ')' || c == '%' || c == '°' || c == '/'

/-- Case-insensitive literal match at the head of the text: the pattern is a
lowercase literal and a text character matches iff its ASCII lowering equals
the pattern character.  Returns the consumed (original) text slice. -/
def ciMatch : List Char → List Char → Option (List Char × List Char)
  | [], rest => some ([], rest)
  | _ :: _, [] => none
  | p :: ps, c :: cs =>
    if c.toLower == p then
      match ciMatch ps cs with
      | some (took, rest) => some (c :: took, rest)
      | none => none
    else none

/-- Match a maximal run of at least one whitespace character (`\s+`),
returning the consumed slice. -/
def wsRun : List Char → Option (List Char × List Char)
  | [] => none
  | c :: cs =>
    if isPySpace c then some (c :: cs.takeWhile isPySpace, cs.dropWhile isPySpace)
    else none

/-- Match a maximal run of at least one ASCII digit (`\d+`). -/
def digitRun : List Char → Option (List Char × List Char)
  | [] => none
  | c :: cs =>
    if c.isDigit then some (c :: cs.takeWhile Char.isDigit, cs.dropWhile Char.isDigit)
    else none

/-- Case-sensitive literal match at the head of the text (the temperature
normalization patterns are compiled without `re.IGNORECASE`). -/
def ciMatchExact : List Char → List Char → Option (List Char)
  | [], rest => some rest
  | _ :: _, [] => none
  | p :: ps, c :: cs => if c == p then ciMatchExact ps cs else none

/-- Tail of `degrees?\s*[Xx]tail` starting right after the literal `degree`:
greedy optional `s` (with backtracking), then `\s*`, the two-case first
letter, and the case-sensitive lowercase remainder.  Returns the rest of the
text. -/
def degreeTail (letter : Char) (restLit : List Char) (l : List Char) : Option (List Char) :=
  let after : List Char → Option (List Char) := fun r =>
    match r.dropWhile isPySpace with
    | [] => none
    | c :: cs =>
      if c == letter || c == letter.toLower then ciMatchExact restLit cs
      else none
  match l with
  | 's' :: rest => (after rest).orElse fun _ => after l
  | _ => after l

/-- One attempt of `re.sub(r'(\d+)\s*degrees?\s*[Ff]ahrenheit', r'\1°F', ...)`
(resp. the `[Cc]elsius` variant) at the current position: returns the digit
group and the rest of the text on success. -/
def tempAt (letter : Char) (restLit : List Char) (l : List Char) :
    Option (List Char × List Char) :=
  match digitRun l with
  | none => none
  | some (ds, r1) =>
    match ciMatchExact ['d','e','g','r','e','e'] (r1.dropWhile isPySpace) with
    | none => none
    | some r3 =>
      match degreeTail letter restLit r3 with
      | some rest => some (ds, rest)
      | none => none

/-- Scanner for the two temperature substitutions of
`DataProcessor.clean_text`: each match `(\d+)\s*degrees?\s*[Ff]ahrenheit`
(resp. Celsius) is replaced by the digit group followed by `°F` (resp.
`°C`); fuel bounds the number of scan steps. -/
def tempSubGo (letter : Char) (restLit unit : List Char) :
    Nat → List Char → List Char
  | 0, l => l
  | _ + 1, [] => []
  | fuel + 1, c :: cs =>
    match tempAt letter restLit (c :: cs) with
    | some (ds, rest) => ds ++ unit ++ tempSubGo letter restLit unit fuel rest
    | none => c :: tempSubGo letter restLit unit fuel cs

/-- `re.sub(r'(\d+)\s*degrees?\s*[Ff]ahrenheit', r'\1°F', text)` followed by
the Celsius variant. -/
def tempNormalize (l : List Char) : List Char :=
  let f := tempSubGo 'F' "ahrenheit".data "°F".data l.length l
  tempSubGo 'C' "elsius".data "°C".data f.length f

/-- Word-boundary test between a previous character (`none` at the start of
the text) and the first character of a candidate match: Python `\b` holds
here iff the previous character is absent or not a word character (all
patterns in the code start with a word character). -/
def boundaryL (prevW : Bool) : Bool := !prevW

/-- Word-boundary test after a match: Python `\b` holds iff the text is
exhausted or continues with a non-word character (all patterns in the code
end with a word character). -/
def boundaryR : List Char → Bool
  | [] => true
  | c :: _ => !isWordChar c

/-- One attempt of `\bword[s]?\b` (IGNORECASE) at the current position with
greedy optional `s` and backtracking: returns the rest of the text. -/
def wordOptSAt (pat : List Char) (l : List Char) : Option (List Char) :=
  match ciMatch pat l with
  | none => none
  | some (_, r) =>
    match r with
    | c :: cs =>
      if c.toLower == 's' then
        if boundaryR cs then some cs
        else if boundaryR r then some r else none
      else if boundaryR r then some r else none
    | [] => some []

/-- Scanner for `re.sub(r'\bword[s]?\b', repl, text, flags=IGNORECASE)`
(used for `temp` → `temperature` and `symptoms?` → `symptoms`); `optS` says
whether the optional `s` is present in the pattern, `prevW` whether the
previous text character was a word character. -/
def wordSubGo (pat repl : List Char) (optS : Bool) :
    Nat → Bool → List Char → List Char
  | 0, _, l => l
  | _ + 1, _, [] => []
  | fuel + 1, prevW, c :: cs =>
    let attempt : Option (List Char) :=
      if boundaryL prevW then
        if optS then wordOptSAt pat (c :: cs)
        else match ciMatch pat (c :: cs) with
          | some (_, r) => if boundaryR r then some r else none
          | none => none
      else none
    match attempt with
    | some rest => repl ++ wordSubGo pat repl optS fuel true rest
    | none => c :: wordSubGo pat repl optS fuel (isWordChar c) cs

/-- `DataProcessor.clean_text`: whitespace collapse, strip, removal of
repeated `!`/`?` runs, `...`-normalization of dot runs, character safelist,
temperature normalization, and the `temp`/`symptoms?` rewrites. -/
def cleanTextL (l : List Char) : List Char :=
  let t := pyStrip (collapseWs l)
  let t := rmRuns '!' 2 [] t
  let t := rmRuns '?' 2 [] t
  let t := rmRuns '.' 3 "...".data t
  let t := t.filter isSafeChar
  let t := tempNormalize t
  let t := wordSubGo "temp".data "temperature".data false t.length false t
  wordSubGo "symptom".data "symptoms".data true t.length false t

/-- `DataProcessor.clean_text` on a `String` (empty input returns `""`, as
the Python guard does). -/
def cleanText (s : String) : String := ⟨cleanTextL s.data⟩

/-- A per-language disclaimer table (the `general`, `emergency` and
`pregnancy` keys of the `DISCLAIMERS` dictionaries in
`config/medical_constants.py`). -/
structure DisclaimerBank where
  general : String
  emergency : String
  pregnancy : String
deriving DecidableEq, Repr

/-- MalariaConstants.EMERGENCY_SYMPTOMS -/
def malariaEmergencySymptoms : List String := [
  "unconscious",
  "unconsciousness",
  "coma",
  "seizure",
  "seizures",
  "convulsion",
  "convulsions",
  "difficulty breathing",
  "shortness of breath",
  "severe vomiting",
  "repeated vomiting",
  "blood in vomit",
  "black vomit",
  "confusion",
  "delirium",
  "severe headache",
  "neck stiffness",
  "yellowing skin",
  "jaundice",
  "dark urine",
  "bloody urine",
  "severe weakness",
  "collapse",
  "unable to sit",
  "unable to stand",
  "high fever",
  "fever above 104",
  "fever over 40"]

/-- MalariaConstants.SEVERE_SYMPTOMS -/
def malariaSevereSymptoms : List String := [
  "persistent fever",
  "severe chills",
  "rigors",
  "profuse sweating",
  "night sweats",
  "severe muscle pain",
  "body aches",
  "joint pain",
  "persistent headache",
  "nausea",
  "vomiting",
  "diarrhea",
  "abdominal pain",
  "stomach pain"]

/-- MalariaConstants.EARLY_SYMPTOMS -/
def malariaEarlySymptoms : List String := [
  "fever",
  "headache",
  "chills",
  "muscle aches",
  "tiredness",
  "fatigue",
  "weakness",
  "loss of appetite",
  "mild nausea",
  "body pain",
  "joint aches",
  "feeling unwell",
  "malaise",
  "sweating"]

/-- MalariaConstants.HINDI_SYMPTOMS (surface form, canonical tag) -/
def hindiSymptoms : List (String × String) := [
  ("बुखार", "fever"),
  ("सिर दर्द", "headache"),
  ("सिरदर्द", "headache"),
  ("कंपकंपी", "chills"),
  ("मांसपेशियों में दर्द", "muscle pain"),
  ("कमजोरी", "weakness"),
  ("थकान", "fatigue"),
  ("उल्टी", "vomiting"),
  ("दस्त", "diarrhea"),
  ("पेट दर्द", "stomach pain"),
  ("बेहोशी", "unconsciousness"),
  ("दौरे", "seizures"),
  ("सांस लেने में तकলीफ", "difficulty breathing"),
  ("तेज बुखार", "high fever"),
  ("गले में खराश", "sore throat"),
  ("खांसी", "cough"),
  ("सर चकराना", "dizziness"),
  ("भूख न लगना", "loss of appetite"),
  ("जी मिचलाना", "nausea"),
  ("शरीर में दर्द", "body aches"),
  ("जोड़ों में दर्द", "joint pain")]

/-- MalariaConstants.BENGALI_SYMPTOMS (surface form, canonical tag) -/
def bengaliSymptoms : List (String × String) := [
  ("জ্বর", "fever"),
  ("মাথাব্যথা", "headache"),
  ("মাথা ব্যথা", "headache"),
  ("কাঁপুনি", "chills"),
  ("ঠান্ডা লাগা", "chills"),
  ("পেশীর ব্যথা", "muscle pain"),
  ("দুর্বলতা", "weakness"),
  ("ক্লান্তি", "fatigue"),
  ("বমি", "vomiting"),
  ("বমি বমি ভাব", "nausea"),
  ("ডায়রিয়া", "diarrhea"),
  ("পেটের ব্যথা", "stomach pain"),
  ("পেট ব্যথা", "stomach pain"),
  ("অজ্ঞান", "unconsciousness"),
  ("খিঁচুনি", "seizures"),
  ("শ্বাসকষ্ট", "difficulty breathing"),
  ("তীব্র জ্বর", "high fever"),
  ("প্রচণ্ড জ্বর", "high fever"),
  ("গলা ব্যথা", "sore throat"),
  ("কাশি", "cough"),
  ("মাথা ঘোরা", "dizziness"),
  ("চক্কর", "dizziness"),
  ("ক্ষুধামন্দা", "loss of appetite"),
  ("খাওয়ার রুচি নেই", "loss of appetite"),
  ("শরীর ব্যথা", "body aches"),
  ("গা ব্যথা", "body aches"),
  ("হাড়ের ব্যথা", "bone pain"),
  ("জয়েন্টের ব্যথা", "joint pain"),
  ("গলার খুসখুসানি", "throat irritation"),
  ("নিঃশ্বাসে কষ্ট", "breathing difficulty"),
  ("অচেতন", "unconscious"),
  ("অচেতন অবস্থা", "unconscious"),
  ("জ্ঞান হারানো", "loss of consciousness"),
  ("রক্তবমি", "blood in vomit"),
  ("কালো বমি", "black vomit"),
  ("গুরুতর মাথাব্যথা", "severe headache"),
  ("ঘাড় শক্ত", "neck stiffness"),
  ("চোখ হলুদ", "yellow eyes"),
  ("জন্ডিস", "jaundice"),
  ("প্রস্রাবে রক্ত", "blood in urine"),
  ("গাঢ় প্রস্রাব", "dark urine"),
  ("শরীর খারাপ", "feeling unwell"),
  ("খারাপ লাগছে", "feeling unwell"),
  ("অসুস্থ লাগছে", "feeling sick"),
  ("কেমন যেন লাগছে", "feeling strange"),
  ("গা গুলানো", "nausea"),
  ("পেট খারাপ", "stomach upset")]

/-- DengueConstants.EMERGENCY_SYMPTOMS -/
def dengueEmergencySymptoms : List String := [
  "plasma leakage",
  "severe bleeding",
  "internal bleeding",
  "nosebleed persistent",
  "gum bleeding",
  "vomiting blood",
  "blood in stool",
  "black stool",
  "severe abdominal pain",
  "persistent vomiting",
  "difficulty breathing",
  "restlessness",
  "lethargy",
  "confusion",
  "irritability",
  "cold clammy skin",
  "weak pulse",
  "low blood pressure",
  "seizure",
  "seizures",
  "unconscious",
  "unconsciousness"]

/-- DengueConstants.WARNING_SYMPTOMS -/
def dengueWarningSymptoms : List String := [
  "abdominal pain",
  "persistent vomiting",
  "clinical fluid accumulation",
  "mucosal bleeding",
  "increased vascular permeability",
  "thrombocytopenia",
  "rapid breathing",
  "fatigue",
  "restlessness",
  "skin paleness"]

/-- DengueConstants.EARLY_SYMPTOMS -/
def dengueEarlySymptoms : List String := [
  "high fever",
  "severe headache",
  "eye pain",
  "retro-orbital pain",
  "muscle aches",
  "joint aches",
  "bone pain",
  "back pain",
  "skin rash",
  "nausea",
  "vomiting",
  "loss of appetite",
  "weakness",
  "fatigue",
  "body aches",
  "chills"]

/-- TuberculosisConstants.EMERGENCY_SYMPTOMS -/
def tbEmergencySymptoms : List String := [
  "severe breathing difficulty",
  "extreme shortness of breath",
  "chest pain severe",
  "coughing blood",
  "blood in sputum",
  "massive hemoptysis",
  "breathing failure",
  "severe weight loss",
  "extreme fatigue",
  "high fever persistent",
  "night sweats profuse",
  "unconsciousness",
  "severe chest pain",
  "difficulty swallowing",
  "swollen lymph nodes severe"]

/-- TuberculosisConstants.WARNING_SYMPTOMS -/
def tbWarningSymptoms : List String := [
  "persistent cough",
  "cough lasting weeks",
  "low grade fever",
  "weight loss gradual",
  "loss of appetite",
  "fatigue prolonged",
  "night sweats",
  "chest pain mild",
  "shortness of breath",
  "sputum production",
  "hoarse voice",
  "swollen lymph nodes",
  "abdominal pain",
  "bone pain",
  "back pain"]

/-- TuberculosisConstants.EARLY_SYMPTOMS -/
def tbEarlySymptoms : List String := [
  "cough",
  "persistent cough",
  "dry cough",
  "productive cough",
  "fever",
  "low grade fever",
  "weight loss",
  "loss of appetite",
  "fatigue",
  "weakness",
  "night sweats",
  "chest discomfort",
  "shortness of breath",
  "tiredness",
  "malaise",
  "body aches"]

/-- MalariaConstants.DISCLAIMERS (general, emergency, pregnancy). -/
def englishDisclaimers : DisclaimerBank :=
  ⟨"This information is for educational purposes only and does not replace professional medical advice. Always consult with a healthcare provider for medical concerns.",
   "⚠️ EMERGENCY: These symptoms may indicate a serious condition. Seek immediate medical attention at the nearest hospital or healthcare facility.",
   "⚠️ PREGNANCY ALERT: Malaria during pregnancy can be dangerous for both mother and baby. Seek immediate medical care."⟩

/-- MalariaConstants.BENGALI_DISCLAIMERS (general, emergency, pregnancy). -/
def bengaliDisclaimers : DisclaimerBank :=
  ⟨"এই তথ্য শুধুমাত্র শিক্ষামূলক উদ্দেশ্যে এবং পেশাদার চিকিৎসা পরামর্শের বিকল্প নয়। স্বাস্থ্য সংক্রান্ত যেকোনো সমস্যার জন্য সর্বদা একজন চিকিৎসকের পরামর্শ নিন।",
   "⚠️ জরুরি অবস্থা: এই লক্ষণগুলি একটি গুরুতর অবস্থার ইঙ্গিত দিতে পারে। অবিলম্বে নিকটস্থ হাসপাতাল বা স্বাস্থ্যসেবা কেন্দ্রে চিকিৎসা সেবা নিন।",
   "⚠️ গর্ভাবস্থার সতর্কতা: গর্ভাবস্থায় ম্যালেরিয়া মা ও শিশু উভয়ের জন্য বিপজ্জনক হতে পারে। অবিলম্বে চিকিৎসা সেবা নিন।"⟩

/-- MalariaConstants.HINDI_DISCLAIMERS (general, emergency, pregnancy). -/
def hindiDisclaimers : DisclaimerBank :=
  ⟨"यह जानकारी केवल शैक्षिक उद्देश्यों के लिए है और पेशेवर चिकित्सा सलाह का विकल्प नहीं है। स्वास्थ्य संबंधी किसी भी समस्या के लिए हमेशा डॉक्टर से सलाह लें।",
   "⚠️ आपातकाल: ये लक्षण एक गंभीर स्थिति का संकेत हो सकते हैं। तुरंत नजदीकी अस्पताल या स्वास्थ्य केंद्र में चिकित्सा सहायता लें।",
   "⚠️ गर्भावस्था चेतावनी: गर्भावस्था में मलेरिया माँ और बच्चे दोनों के लिए खतरनाक हो सकता है। तुरंत चिकित्सा सहायता लें।"⟩


/-- `DataProcessor._compile_symptom_patterns`: the union of all surface
forms — English tier keywords, the Hindi and Bengali surface forms, and
their English translations.  The Python code sorts this set by length
descending before building one big alternation; the scanner below selects
the longest alternative matching at each position, which is exactly what
that ordering achieves, so no explicit sort is needed here. -/
def allSymptomForms : List String :=
  malariaEmergencySymptoms ++ malariaSevereSymptoms ++ malariaEarlySymptoms ++
  hindiSymptoms.map Prod.fst ++ hindiSymptoms.map Prod.snd ++
  bengaliSymptoms.map Prod.fst ++ bengaliSymptoms.map Prod.snd

/-- Emergency surface forms for `DataProcessor.emergency_pattern`: the
English emergency keywords plus every Bengali and Hindi surface form whose
translation is an emergency keyword. -/
def emergencyTermForms : List String :=
  malariaEmergencySymptoms ++
  (bengaliSymptoms.filter (fun p => p.2 ∈ malariaEmergencySymptoms)).map Prod.fst ++
  (hindiSymptoms.filter (fun p => p.2 ∈ malariaEmergencySymptoms)).map Prod.fst

/-- Pick from `pats` the longest nonempty pattern that is a prefix of the
text (regex alternation sorted by length descending picks exactly this
alternative; two distinct patterns of equal length cannot both match). -/
def pickLongest (pats : List (List Char)) (txt : List Char) : Option (List Char) :=
  pats.foldl
    (fun best p =>
      if !p.isEmpty && p.isPrefixOf txt &&
          (match best with | none => true | some b => b.length < p.length)
      then some p else best)
    none

/-- `re.findall` over the big alternation of literal surface forms: scan
left to right; at each position emit the longest matching alternative and
continue after it, otherwise advance one character.  The text is already
lowercased, so matches are emitted verbatim (`match.lower()` in the code). -/
def scanForms (pats : List (List Char)) : Nat → List Char → List (List Char)
  | 0, _ => []
  | _ + 1, [] => []
  | fuel + 1, c :: cs =>
    match pickLongest pats (c :: cs) with
    | some p => p :: scanForms pats fuel ((c :: cs).drop p.length)
    | none => scanForms pats fuel cs

/-- `DataProcessor.extract_symptoms` translation step: a Hindi surface form
maps through `HINDI_SYMPTOMS`, else a Bengali one through
`BENGALI_SYMPTOMS`, else the match passes through unchanged. -/
def translateSymptom (s : String) : String :=
  match hindiSymptoms.lookup s with
  | some e => e
  | none =>
    match bengaliSymptoms.lookup s with
    | some e => e
    | none => s

/-- `DataProcessor.extract_symptoms`: clean, scan the lowercased text for
lexicon surface forms (longest-first), deduplicate, translate Hindi/Bengali
forms to canonical English tags, deduplicate again. -/
def dpExtractSymptoms (text : String) : List String :=
  let cleaned := pyLower (cleanTextL text.data)
  let found := scanForms (allSymptomForms.map String.data) cleaned.length cleaned
  let symptoms := (found.map String.mk).dedup
  (symptoms.map translateSymptom).dedup

/-- Numeric value of an ASCII digit run (Python `float(temp_str)` on the
matched digits yields exactly this integer). -/
def digitsToNat (ds : List Char) : Nat :=
  ds.foldl (fun a c => a * 10 + (c.toNat - 48)) 0

/-- All maximal digit runs of the text, as numbers (the matches of
`re.findall(r'(\d+)°?[FC]?', cleaned_text)`, whose optional parts do not
constrain the digit group). -/
def digitRuns : Nat → List Char → List Nat
  | 0, _ => []
  | _ + 1, [] => []
  | fuel + 1, c :: cs =>
    match digitRun (c :: cs) with
    | some (ds, rest) => digitsToNat ds :: digitRuns fuel rest
    | none => digitRuns fuel cs

/-- Temperature-based emergency detection in
`DataProcessor.detect_emergency_indicators`: a reading above 50 is treated
as Fahrenheit (emergency at 104 or more), otherwise Celsius (emergency at
40 or more). -/
def tempEmergency (n : Nat) : List String :=
  if 50 < n then (if 104 ≤ n then ["high fever"] else [])
  else if 40 ≤ n then ["high fever"] else []

/-- `DataProcessor.detect_emergency_indicators`: clean, scan the lowercased
text for emergency surface forms (longest-first, untranslated), deduplicate,
then append `"high fever"` for each emergency temperature reading. -/
def dpDetectEmergencyIndicators (text : String) : List String :=
  let cleaned := cleanTextL text.data
  let low := pyLower cleaned
  let found := scanForms (emergencyTermForms.map String.data) low.length low
  let indicators := (found.map String.mk).dedup
  indicators ++ (digitRuns cleaned.length cleaned).flatMap tempEmergency

/-- A token of an embedded regular expression: a case-insensitive literal or
a `\s+` whitespace run. -/
inductive RTok where
  | lit (w : List Char)
  | ws
deriving Repr

/-- Match a token sequence at the head of the text, returning the consumed
slice and the rest. -/
def tokMatch : List RTok → List Char → Option (List Char × List Char)
  | [], l => some ([], l)
  | RTok.lit w :: ts, l =>
    match ciMatch w l with
    | none => none
    | some (t1, r1) =>
      match tokMatch ts r1 with
      | none => none
      | some (t2, rest) => some (t1 ++ t2, rest)
  | RTok.ws :: ts, l =>
    match wsRun l with
    | none => none
    | some (s1, r1) =>
      match tokMatch ts r1 with
      | none => none
      | some (t2, rest) => some (s1 ++ t2, rest)

/-- Try the alternatives of a `\b(a|b|...)\b` pattern in order at the current
position; the trailing `\b` failing on one alternative backtracks to the
next (this is how `unconscious|unconsciousness` matches the longer word). -/
def altsMatch : List (List RTok) → List Char → Option (List Char × List Char)
  | [], _ => none
  | alt :: alts, l =>
    match tokMatch alt l with
    | some (took, rest) => if boundaryR rest then some (took, rest) else altsMatch alts l
    | none => altsMatch alts l

/-- `re.findall` for a word-bounded alternation: scan left to right, record
each matched slice and continue after it; `prevW` tracks whether the
previous character is a word character (for the leading `\b`). -/
def wbFindGo (alts : List (List RTok)) : Nat → Bool → List Char → List (List Char)
  | 0, _, _ => []
  | _ + 1, _, [] => []
  | fuel + 1, prevW, c :: cs =>
    match (if boundaryL prevW then altsMatch alts (c :: cs) else none) with
    | some (took, rest) => took :: wbFindGo alts fuel true rest
    | none => wbFindGo alts fuel (isWordChar c) cs

/-- All matches of a word-bounded alternation in the text. -/
def wbFindAll (alts : List (List RTok)) (l : List Char) : List (List Char) :=
  wbFindGo alts l.length false l

/-- Singleton-literal alternatives (patterns without `\s+`). -/
def litAlts (ws : List String) : List (List RTok) :=
  ws.map (fun w => [RTok.lit w.data])

/-- `emergency_patterns[0]`: `\b(unconscious|unconsciousness|coma|collapse)\b`. -/
def emergencyPattern0 : List (List RTok) :=
  litAlts ["unconscious", "unconsciousness", "coma", "collapse"]

/-- `emergency_patterns[1]`: `\b(seizure|seizures|convulsion|convulsions)\b`. -/
def emergencyPattern1 : List (List RTok) :=
  litAlts ["seizure", "seizures", "convulsion", "convulsions"]

/-- `emergency_patterns[2]`:
`\b(difficulty breathing|shortness of breath|can'?t breathe)\b` (the
optional apostrophe expands greedily into two alternatives). -/
def emergencyPattern2 : List (List RTok) :=
  litAlts ["difficulty breathing", "shortness of breath", "can\x27t breathe", "cant breathe"]

/-- `emergency_patterns[3]`:
`\b(severe|extreme|unbearable)\s+(pain|headache|vomiting)\b`, expanded into
its nine ordered alternative pairs.  This is the one pattern with two
capture groups: its `findall` matches are tuples, on which the code's
`ind.strip()` raises `AttributeError`. -/
def emergencyPattern3 : List (List RTok) :=
  (["severe", "extreme", "unbearable"].flatMap fun a =>
    ["pain", "headache", "vomiting"].map fun b =>
      [RTok.lit a.data, RTok.ws, RTok.lit b.data])

/-- `emergency_patterns[4]`: `\b(emergency|urgent|immediate|help|serious)\b`. -/
def emergencyPattern4 : List (List RTok) :=
  litAlts ["emergency", "urgent", "immediate", "help", "serious"]

/-- `emergency_patterns[5]`:
`\b(blood\s+in\s+vomit|bloody\s+vomit|black\s+vomit)\b`. -/
def emergencyPattern5 : List (List RTok) :=
  [[RTok.lit "blood".data, RTok.ws, RTok.lit "in".data, RTok.ws, RTok.lit "vomit".data],
   [RTok.lit "bloody".data, RTok.ws, RTok.lit "vomit".data],
   [RTok.lit "black".data, RTok.ws, RTok.lit "vomit".data]]

/-- The urgent temporal cue phrases of
`MedicalQueryProcessor.detect_emergency_intent`. -/
def urgentTemporal : List String :=
  ["right now", "immediately", "as soon as possible", "can\x27t wait",
   "getting worse", "rapidly"]

/-- `MedicalQueryProcessor.detect_emergency_intent`: the regex-pattern
matches, the `DataProcessor` emergency indicators and the urgent temporal
phrases, deduplicated, with empties filtered; any match of the two-group
pattern `emergency_patterns[3]` makes the real code raise `AttributeError`
(tuples in the indicator list), embedded here as `Except.error`. -/
def detectEmergencyIntent (q : String) : Except String (Bool × List String) :=
  if q.data.isEmpty then .ok (false, [])
  else if !(wbFindAll emergencyPattern3 q.data).isEmpty then
    .error "AttributeError: tuple object has no attribute strip"
  else
    let patMatches :=
      (wbFindAll emergencyPattern0 q.data ++ wbFindAll emergencyPattern1 q.data ++
       wbFindAll emergencyPattern2 q.data ++ wbFindAll emergencyPattern4 q.data ++
       wbFindAll emergencyPattern5 q.data).map String.mk
    let lowq := pyLower q.data
    let temporal := urgentTemporal.filter (fun t => subOf t.data lowq)
    let all := patMatches ++ dpDetectEmergencyIndicators q ++ temporal
    let inds := (all.filter (fun s => !(pyStrip s.data).isEmpty)).dedup
    .ok (!inds.isEmpty, inds)

/-- The medical keyword set of `MedicalQueryProcessor.classify_query_type`. -/
def classifierMedicalKeywords : List String :=
  ["symptom", "symptoms", "disease", "illness", "condition",
   "treatment", "medicine", "doctor", "hospital", "health",
   "fever", "pain", "ache", "sick", "unwell"]

/-- The non-medical indicator set of
`MedicalQueryProcessor.classify_query_type`. -/
def nonMedicalIndicators : List String :=
  ["weather", "temperature outside", "forecast",
   "recipe", "cooking", "food",
   "news", "sports", "politics",
   "time", "date", "calendar"]

/-- The prevention keyword list of
`MedicalQueryProcessor.classify_query_type`. -/
def preventionKeywords : List String :=
  ["prevent", "avoid", "protection", "vaccine", "immunization"]

/-- The classification chain of `MedicalQueryProcessor.classify_query_type`
after the emergency short-circuit (`symptoms=None` in Python behaves exactly
like the empty list here). -/
def classifyCore (q : String) (symptoms : List String) : String :=
  let lowq := pyLower q.data
  let medCount := (classifierMedicalKeywords.filter (fun w => subOf w.data lowq)).length
  if nonMedicalIndicators.any (fun w => subOf w.data lowq) then "non_medical"
  else if !symptoms.isEmpty then "symptom_inquiry"
  else if 0 < medCount then "medical_question"
  else if preventionKeywords.any (fun w => subOf w.data lowq) then "prevention_inquiry"
  else if 0 < medCount then "medical_question" else "non_medical"

/-- `MedicalQueryProcessor.classify_query_type`: auto-detect the emergency
flag when it is not supplied (which can raise, see
`detectEmergencyIntent`), return `emergency` whenever it is set, and
otherwise run the keyword chain. -/
def classifyQueryType (q : String) (symptoms : List String)
    (emergencyDetected : Option Bool) : Except String String := do
  let emerg ← match emergencyDetected with
    | some b => pure b
    | none => (detectEmergencyIntent q).map Prod.fst
  if emerg then pure "emergency" else pure (classifyCore q symptoms)

/-- Try alternative spellings of one word (for the optional apostrophe in
`can'?t`) in order, via case-insensitive literal match. -/
def matchWordAlts (alts : List (List Char)) (l : List Char) :
    Option (List Char × List Char) :=
  match alts with
  | [] => none
  | w :: ws =>
    match ciMatch w l with
    | some r => some r
    | none => matchWordAlts ws l

/-- The `\s+`-separated continuation of a phrase pattern after its first
word. -/
def phraseTail : List (List (List Char)) → List Char → Option (List Char × List Char)
  | [], l => some ([], l)
  | w :: ws, l =>
    match wsRun l with
    | none => none
    | some (s1, r1) =>
      match matchWordAlts w r1 with
      | none => none
      | some (t1, r2) =>
        match phraseTail ws r2 with
        | none => none
        | some (t2, rest) => some (s1 ++ t1 ++ t2, rest)

/-- Match a full `\bw1\s+w2...\b` phrase pattern at the current position. -/
def phraseAt (words : List (List (List Char))) (l : List Char) :
    Option (List Char × List Char) :=
  match words with
  | [] => none
  | w :: ws =>
    match matchWordAlts w l with
    | none => none
    | some (t1, r1) =>
      match phraseTail ws r1 with
      | none => none
      | some (t2, rest) =>
        if boundaryR rest then some (t1 ++ t2, rest) else none

/-- Scanner for `re.sub(r'\bw1\s+w2...\b', repl, text, flags=IGNORECASE)`
(the typo corrections of `MedicalQueryProcessor._normalize_query`). -/
def phraseSubGo (words : List (List (List Char))) (repl : List Char) :
    Nat → Bool → List Char → List Char
  | 0, _, l => l
  | _ + 1, _, [] => []
  | fuel + 1, prevW, c :: cs =>
    match (if boundaryL prevW then phraseAt words (c :: cs) else none) with
    | some (_, rest) => repl ++ phraseSubGo words repl fuel true rest
    | none => c :: phraseSubGo words repl fuel (isWordChar c) cs

/-- One typo-correction pass. -/
def phraseSub (words : List (List String)) (repl : String) (l : List Char) : List Char :=
  phraseSubGo (words.map (·.map String.data)) repl.data l.length false l

/-- The `typo_corrections` table of
`MedicalQueryProcessor._normalize_query`, in dictionary (insertion) order;
`can'?t` expands greedily into its two spellings. -/
def typoCorrections : List (List (List String) × String) :=
  [([["fever"], ["and"], ["cold"]], "fever and chills"),
   ([["head"], ["ache"]], "headache"),
   ([["stomach"], ["ache"]], "stomach pain"),
   ([["body"], ["pain"]], "body aches"),
   ([["can\x27t", "cant"], ["sleep"]], "difficulty sleeping"),
   ([["very"], ["tired"]], "fatigue")]

/-- `MedicalQueryProcessor._normalize_query`: clean via the data processor,
strip repeated `!`/`?` and squeeze repeated commas/periods, apply the typo
corrections, and strip. -/
def normalizeQuery (q : String) : String :=
  if q.data.isEmpty then ""
  else
    let t := cleanTextL q.data
    let t := rmRuns '!' 2 [] t
    let t := rmRuns '?' 2 [] t
    let t := rmRuns ',' 2 [','] t
    let t := rmRuns '.' 2 ['.'] t
    let t := typoCorrections.foldl (fun acc wr => phraseSub wr.1 wr.2 acc) t
    ⟨pyStrip t⟩

/-- The additional symptom phrase list of
`MedicalQueryProcessor.extract_symptoms`. -/
def mqpSymptomPhrases : List String :=
  ["feel sick", "feeling unwell", "not feeling well",
   "body aches", "muscle pain", "joint pain",
   "loss of appetite", "difficulty sleeping"]

/-- `MedicalQueryProcessor.extract_symptoms`: the `DataProcessor` symptoms
plus underscore-joined matches of the query-specific phrase list,
deduplicated and filtered (length over two and not the bare word `pain`). -/
def mqpExtractSymptoms (q : String) : List String :=
  if q.data.isEmpty then []
  else
    let symptoms := dpExtractSymptoms q
    let lowq := pyLower q.data
    let additional := (mqpSymptomPhrases.filter (fun p => subOf p.data lowq)).map
      (fun p => String.mk (p.data.map (fun c => if c == ' ' then '_' else c)))
    let all := (symptoms ++ additional).dedup
    all.filter (fun s => 2 < s.data.length && s ≠ "pain")

/-- The unit alternatives of `duration_patterns[0]`. -/
def durationUnits1 : List String :=
  ["day", "days", "week", "weeks", "month", "months", "hour", "hours"]

/-- The unit alternatives of `duration_patterns[1]`. -/
def durationUnits2 : List String := ["day", "days", "week", "weeks"]

/-- First match of `duration_patterns[0]`
(`\b(\d+)\s+(day|days|...|hours)\b`), with the two groups joined by a single
space as `' '.join(matches[0])` does. -/
def durScan1 : Nat → Bool → List Char → Option String
  | 0, _, _ => none
  | _ + 1, _, [] => none
  | fuel + 1, prevW, c :: cs =>
    let attempt : Option String :=
      if boundaryL prevW then
        match digitRun (c :: cs) with
        | some (ds, r1) =>
          match wsRun r1 with
          | some (_, r2) =>
            match altsMatch (litAlts durationUnits1) r2 with
            | some (unit, _) => some (String.mk (ds ++ ' ' :: unit))
            | none => none
          | none => none
        | none => none
      else none
    match attempt with
    | some s => some s
    | none => durScan1 fuel (isWordChar c) cs

/-- The continuation `\s+(\d+)\s+(units)\b` of `duration_patterns[1]` after
its first group, returning the `(digits, unit)` groups. -/
def durTail2 (l : List Char) : Option (List Char × List Char) :=
  match wsRun l with
  | none => none
  | some (_, r1) =>
    match digitRun r1 with
    | none => none
    | some (ds, r2) =>
      match wsRun r2 with
      | none => none
      | some (_, r3) =>
        match altsMatch (litAlts durationUnits2) r3 with
        | some (unit, _) => some (ds, unit)
        | none => none

/-- First match of `duration_patterns[1]`
(`\b(since|for)\s+(\d+)\s+(day|days|week|weeks)\b`), three groups joined by
single spaces. -/
def durScan2 : Nat → Bool → List Char → Option String
  | 0, _, _ => none
  | _ + 1, _, [] => none
  | fuel + 1, prevW, c :: cs =>
    let tryWord : List Char → Option String := fun w =>
      match ciMatch w (c :: cs) with
      | some (took, r1) =>
        match durTail2 r1 with
        | some (ds, unit) =>
          some (String.mk (took ++ ' ' :: ds ++ ' ' :: unit))
        | none => none
      | none => none
    let attempt : Option String :=
      if boundaryL prevW then
        match tryWord "since".data with
        | some s => some s
        | none => tryWord "for".data
      else none
    match attempt with
    | some s => some s
    | none => durScan2 fuel (isWordChar c) cs

/-- `duration_patterns[2]`: `\b(yesterday|today|last\s+night)\b`. -/
def durationPattern3 : List (List RTok) :=
  [[RTok.lit "yesterday".data], [RTok.lit "today".data],
   [RTok.lit "last".data, RTok.ws, RTok.lit "night".data]]

/-- The severity adjective list of
`MedicalQueryProcessor._extract_metadata`. -/
def severityWords : List String :=
  ["severe", "extreme", "unbearable", "intense", "terrible", "awful"]

/-- The `EARLY | SEVERE | EMERGENCY` malaria term union scanned for the
`medical_keywords` metadata field (a Python set, hence deduplicated). -/
def metadataMedicalTerms : List String :=
  (malariaEarlySymptoms ++ malariaSevereSymptoms ++ malariaEmergencySymptoms).dedup

/-- The metadata record built by `MedicalQueryProcessor._extract_metadata`
(`temporal_expressions` is declared but never filled by the code; the
`language` key is absent when the query has no non-space characters). -/
structure QueryMetadata where
  duration : Option String
  severityIndicators : List String
  medicalKeywords : List String
  temporalExpressions : List String
  specialPopulations : List String
  language : Option String
deriving DecidableEq, Repr

/-- The language classification of
`MedicalQueryProcessor._extract_metadata`, from the Devanagari and Bengali
character shares of the non-space characters. -/
def classifyLanguage (hindiFrac bengaliFrac : ℚ) : String :=
  if (1/10 < hindiFrac || 1/10 < bengaliFrac) && hindiFrac + bengaliFrac < 7/10 then
    "mixed"
  else if 3/10 < bengaliFrac then "bengali"
  else if 3/10 < hindiFrac then "hindi"
  else if 1/10 < hindiFrac + bengaliFrac then "mixed"
  else "english"

/-- `MedicalQueryProcessor._extract_metadata`. -/
def extractMetadata (q : String) : QueryMetadata :=
  let lowq := pyLower q.data
  let duration :=
    match durScan1 q.data.length false q.data with
    | some s => some s
    | none =>
      match durScan2 q.data.length false q.data with
      | some s => some s
      | none => (wbFindAll durationPattern3 q.data).head?.map String.mk
  let hindiCount := (q.data.filter (fun c => 0x900 ≤ c.val && c.val ≤ 0x97F)).length
  let bengaliCount := (q.data.filter (fun c => 0x980 ≤ c.val && c.val ≤ 0x9FF)).length
  let total := (q.data.filter (fun c => c ≠ ' ')).length
  { duration := duration
    severityIndicators := severityWords.filter (fun w => subOf w.data lowq)
    medicalKeywords := metadataMedicalTerms.filter (fun t => subOf (pyLower t.data) lowq)
    temporalExpressions := []
    specialPopulations :=
      (if subOf "pregnant".data lowq || subOf "pregnancy".data lowq then ["pregnancy"] else []) ++
      (if subOf "child".data lowq || subOf "baby".data lowq || subOf "infant".data lowq then
        ["pediatric"] else []) ++
      (if subOf "elderly".data lowq || subOf "old person".data lowq then ["elderly"] else [])
    language :=
      if total = 0 then none
      else some (classifyLanguage ((hindiCount : ℚ) / total) ((bengaliCount : ℚ) / total)) }

/-- Python `str.split()`: whitespace-run separated words, empties dropped. -/
def pySplitGo : Nat → List Char → List (List Char)
  | 0, _ => []
  | _ + 1, [] => []
  | fuel + 1, c :: cs =>
    if isPySpace c then pySplitGo fuel cs
    else (c :: cs.takeWhile (fun d => !isPySpace d)) ::
      pySplitGo fuel (cs.dropWhile (fun d => !isPySpace d))

/-- The medical word list of
`MedicalQueryProcessor._calculate_query_confidence`. -/
def confidenceMedicalWords : List String :=
  ["fever", "pain", "ache", "symptoms", "sick", "illness", "disease"]

/-- `MedicalQueryProcessor._calculate_query_confidence`: length bonuses,
symptom-count bonus (capped), query-type bonus, emergency bonus and
medical-word-density bonus, capped at one. -/
def calcQueryConfidence (q : String) (symptoms : List String) (emerg : Bool)
    (qt : String) : ℚ :=
  let lowq := pyLower q.data
  let c := (0 : ℚ)
  let c := if 10 < q.data.length then c + 2/10 else c
  let c := if 30 < q.data.length then c + 1/10 else c
  let c := if !symptoms.isEmpty then c + min ((symptoms.length : ℚ) * (15/100)) (4/10) else c
  let c := if qt = "symptom_inquiry" || qt = "emergency" then c + 3/10
    else if qt = "medical_question" then c + 2/10 else c
  let c := if emerg then c + 2/10 else c
  let wordCount := (pySplitGo q.data.length q.data).length
  let medCount := (confidenceMedicalWords.filter (fun w => subOf w.data lowq)).length
  let c := if 0 < wordCount then c + (medCount : ℚ) / wordCount * (2/10) else c
  min c 1

/-- The processed-query record of `MedicalQueryProcessor.process_query`
(`processed_at` is a timestamp and is omitted; an absent `error` key is
`none`, the empty `metadata` dict of the error results is `none`). -/
structure QueryResult where
  originalQuery : String
  processedQuery : String
  symptoms : List String
  queryType : String
  emergencyDetected : Bool
  emergencyIndicators : List String
  confidence : ℚ
  metadata : Option QueryMetadata
  error : Option String
deriving DecidableEq, Repr

/-- `MedicalQueryProcessor._empty_query_result`. -/
def emptyQueryResult (q : String) : QueryResult :=
  { originalQuery := q, processedQuery := "", symptoms := [],
    queryType := "invalid", emergencyDetected := false,
    emergencyIndicators := [], confidence := 0, metadata := none,
    error := some "Empty query provided" }

/-- `MedicalQueryProcessor._error_query_result`. -/
def errorQueryResult (q : String) (msg : String) : QueryResult :=
  { originalQuery := q, processedQuery := q, symptoms := [],
    queryType := "error", emergencyDetected := false,
    emergencyIndicators := [], confidence := 0, metadata := none,
    error := some msg }

/-- `MedicalQueryProcessor.process_query`: empty or whitespace-only input
short-circuits to the invalid-query result; otherwise normalize, extract,
detect, classify and assemble; an exception anywhere in the pipeline (the
`AttributeError` of `detect_emergency_intent`) is caught and becomes the
error result. -/
def processQuery (q : String) : QueryResult :=
  if q.data.isEmpty || (pyStrip q.data).isEmpty then emptyQueryResult q
  else
    let processed := normalizeQuery q
    let symptoms := mqpExtractSymptoms processed
    match detectEmergencyIntent processed with
    | .error e => errorQueryResult q e
    | .ok (emerg, inds) =>
      match classifyQueryType processed symptoms (some emerg) with
      | .error e => errorQueryResult q e
      | .ok qt =>
        { originalQuery := q, processedQuery := processed,
          symptoms := symptoms, queryType := qt,
          emergencyDetected := emerg, emergencyIndicators := inds,
          confidence := calcQueryConfidence processed symptoms emerg qt,
          metadata := some (extractMetadata processed), error := none }

/-- A disease's tier partition (the `EMERGENCY_SYMPTOMS` /
`WARNING_SYMPTOMS` / `EARLY_SYMPTOMS`-or-`COMMON_SYMPTOMS` constants object
injected into each checker).  The `ViralFluConstants` values are not part of
the sources at hand, so the flu theorems quantify over this structure. -/
structure TierConstants where
  emergency : List String
  warning : List String
  early : List String

/-- The severity assessment record shared by all checkers (`severity`,
`confidence`, the per-tier matched-symptom lists, `total_symptoms`). -/
structure SeverityAssessment where
  severity : String
  confidence : ℚ
  emergencySymptoms : List String
  warningSymptoms : List String
  earlySymptoms : List String
  totalSymptoms : Nat
deriving DecidableEq, Repr

/-- The `if/elif` tallying loop shared by every `assess_*severity` method:
a symptom counts for the highest tier containing it. -/
def tierTally (K : TierConstants) (symptoms : List String) :
    List String × List String × List String :=
  (symptoms.filter (· ∈ K.emergency),
   symptoms.filter (fun s => s ∉ K.emergency && s ∈ K.warning),
   symptoms.filter (fun s => s ∉ K.emergency && s ∉ K.warning && s ∈ K.early))

/-- `BengaliDengueChecker.assess_severity` (the Hindi checker's method is
character-identical): dengue threshold chain over the tier counts. -/
def dengueAssessSeverity (K : TierConstants) (symptoms : List String) :
    SeverityAssessment :=
  let (es, ws, el) := tierTally K symptoms
  let sev :=
    if 0 < es.length then ("emergency", (95 : ℚ)/100)
    else if 2 ≤ ws.length then ("warning", 85/100)
    else if 1 ≤ ws.length && 2 ≤ el.length then ("warning", 80/100)
    else if 3 ≤ el.length then ("suspected", 70/100)
    else if 2 ≤ el.length then ("possible", 60/100)
    else ("unclear", 40/100)
  { severity := sev.1, confidence := sev.2, emergencySymptoms := es,
    warningSymptoms := ws, earlySymptoms := el,
    totalSymptoms := symptoms.length }

/-- `BengaliTuberculosisChecker.assess_tb_severity` (the Hindi checker's
method is character-identical): TB threshold chain, with the
`persistent cough` special case of the `possible` tier. -/
def tbAssessSeverity (K : TierConstants) (symptoms : List String) :
    SeverityAssessment :=
  let (es, ws, el) := tierTally K symptoms
  let sev :=
    if 0 < es.length then ("emergency", (95 : ℚ)/100)
    else if 3 ≤ ws.length || (2 ≤ ws.length && 1 ≤ el.length) then ("high_suspicion", 85/100)
    else if 2 ≤ ws.length || (1 ≤ ws.length && 2 ≤ el.length) then ("suspected", 75/100)
    else if 3 ≤ el.length || (2 ≤ el.length && "persistent cough" ∈ symptoms) then
      ("possible", 65/100)
    else if 1 ≤ el.length then ("monitor", 45/100)
    else ("unclear", 30/100)
  { severity := sev.1, confidence := sev.2, emergencySymptoms := es,
    warningSymptoms := ws, earlySymptoms := el,
    totalSymptoms := symptoms.length }

/-- `BengaliViralFluChecker.assess_flu_severity` (the Hindi checker's method
is character-identical): flu threshold chain over emergency/warning/common
counts, with the `high fever` and `fever` special cases.  The `early` field
of the constants plays the role of `COMMON_SYMPTOMS`. -/
def fluAssessSeverity (K : TierConstants) (symptoms : List String) :
    SeverityAssessment :=
  let (es, ws, co) := tierTally K symptoms
  let sev :=
    if 0 < es.length then ("emergency", (95 : ℚ)/100)
    else if 3 ≤ ws.length || (2 ≤ ws.length && "high fever" ∈ symptoms) then
      ("severe_flu", 85/100)
    else if 2 ≤ ws.length || (1 ≤ ws.length && 3 ≤ co.length) then ("moderate_flu", 75/100)
    else if 4 ≤ co.length || (3 ≤ co.length && "fever" ∈ symptoms) then ("typical_flu", 70/100)
    else if 2 ≤ co.length then ("mild_flu", 60/100)
    else if 1 ≤ co.length then ("possible_cold", 45/100)
    else ("unclear", 30/100)
  { severity := sev.1, confidence := sev.2, emergencySymptoms := es,
    warningSymptoms := ws, earlySymptoms := co,
    totalSymptoms := symptoms.length }

/-- The `DengueConstants` tier partition. -/
def dengueConstants : TierConstants :=
  ⟨dengueEmergencySymptoms, dengueWarningSymptoms, dengueEarlySymptoms⟩

/-- The `TuberculosisConstants` tier partition. -/
def tbConstants : TierConstants :=
  ⟨tbEmergencySymptoms, tbWarningSymptoms, tbEarlySymptoms⟩

/-- `Settings.SIMILARITY_THRESHOLD`. -/
def similarityThreshold : ℚ := 7/10

/-- `Settings.MAX_RETRIEVED_DOCS`. -/
def maxRetrievedDocs : Nat := 5

/-- Document metadata fields read by the retrieval engine (absent dictionary
keys are `none` / empty). -/
structure DocMetadata where
  sectionType : Option String
  emergencyIndicators : List String
  symptoms : List String
  source : String
deriving DecidableEq, Repr

/-- A stored document (`content` plus its metadata). -/
structure MedDocument where
  content : String
  metadata : DocMetadata
deriving DecidableEq, Repr

/-- A raw vector-search result (`score`, `document`). -/
structure SearchResult where
  score : ℚ
  document : MedDocument
deriving DecidableEq, Repr

/-- A search result after `rank_by_medical_relevance` attached
`final_score` (the `relevance_factors` explanation strings are outside
every claim and omitted). -/
structure RankedResult where
  score : ℚ
  document : MedDocument
  finalScore : ℚ
deriving DecidableEq, Repr

/-- The source-authority bonus table of
`MedicalRetrievalEngine._calculate_relevance_boost`. -/
def authorityBonus (source : String) : ℚ :=
  if source = "medlineplus" then 1/10
  else if source = "who" then 15/100
  else if source = "cdc" then 12/100
  else if source = "icmr" then 8/100
  else 0

/-- `MedicalRetrievalEngine._calculate_relevance_boost`: emergency section
and emergency-tag boosts, symptom-overlap boost (overlap of the lowercased
symptom sets over the query-symptom list length), source authority, and
section/query-type agreement. -/
def calcRelevanceBoost (doc : MedDocument) (querySymptoms : List String)
    (queryType : String) (emergencyDetected : Bool) : ℚ :=
  let md := doc.metadata
  let b := (0 : ℚ)
  let b := if emergencyDetected then
      (if md.sectionType = some "emergency" then b + 3/10 else b) +
      (if !md.emergencyIndicators.isEmpty then 2/10 else 0)
    else b
  let b := if !querySymptoms.isEmpty then
      let ql := (querySymptoms.map (fun s => String.mk (pyLower s.data)))
      let dl := (md.symptoms.map (fun s => String.mk (pyLower s.data)))
      let overlap := (ql.dedup.filter (· ∈ dl)).length
      b + (overlap : ℚ) / ql.length * (25/100)
    else b
  let b := b + authorityBonus md.source
  if queryType = "symptom_inquiry" && md.sectionType = some "symptoms" then b + 1/10
  else if queryType = "emergency" && md.sectionType = some "emergency" then b + 15/100
  else b

/-- The descending-final-score order used by the ranker. -/
def scoreGE (a b : RankedResult) : Prop := b.finalScore ≤ a.finalScore

instance : DecidableRel scoreGE := fun a b => inferInstanceAs (Decidable (b.finalScore ≤ a.finalScore))

instance : IsTotal RankedResult scoreGE :=
  ⟨fun a b => le_total b.finalScore a.finalScore⟩

instance : IsTrans RankedResult scoreGE :=
  ⟨fun _ _ _ h1 h2 => le_trans h2 h1⟩

/-- `MedicalRetrievalEngine.rank_by_medical_relevance`: attach
`final_score = score + boost` to every result and sort by it, highest
first (`List.insertionSort` with the reflexive descending order reproduces
the stable descending `sorted(..., reverse=True)`). -/
def rankByMedicalRelevance (results : List SearchResult)
    (querySymptoms : List String) (queryType : String)
    (emergencyDetected : Bool) : List RankedResult :=
  if results.isEmpty then []
  else
    let scored := results.map fun r =>
      { score := r.score, document := r.document,
        finalScore :=
          r.score + calcRelevanceBoost r.document querySymptoms queryType emergencyDetected }
    List.insertionSort scoreGE scored

/-- The distinct lowercased whitespace-split word tokens of a content
string (Python `set(content.lower().split())`). -/
def wordTokenList (s : String) : List String :=
  let c := pyLower s.data
  ((pySplitGo c.length c).map String.mk).dedup

/-- The similarity value computed inside
`MedicalRetrievalEngine._is_duplicate_content` for one pair of contents:
token-set Jaccard similarity of the lowercased whitespace-split words, zero
when either guard fails. -/
def contentSimilarity (a b : String) : ℚ :=
  if 0 < (pyLower a.data).length && 0 < (pyLower b.data).length then
    let wa := wordTokenList a
    let wb := wordTokenList b
    if !wa.isEmpty && !wb.isEmpty then
      let inter := (wa.filter (· ∈ wb)).length
      let un := (wa ++ wb.filter (· ∉ wa)).length
      if 0 < un then (inter : ℚ) / un else 0
    else 0
  else 0

/-- `MedicalRetrievalEngine._is_duplicate_content`: the candidate is a
duplicate iff its similarity with some already-accepted result
exceeds `0.8`. -/
def isDuplicateContent (doc : MedDocument) (existing : List RankedResult) : Bool :=
  existing.any fun ex => decide (8/10 < contentSimilarity doc.content ex.document.content)

/-- The accumulating loop of `MedicalRetrievalEngine._apply_quality_filters`:
skip low scores and short contents, drop near-duplicates of the accepted
prefix, stop once the accepted list reaches the maximum. -/
def qualityGo : List RankedResult → List RankedResult → List RankedResult
  | [], acc => acc
  | r :: rest, acc =>
    if r.finalScore < similarityThreshold then qualityGo rest acc
    else if r.document.content.data.length < 20 then qualityGo rest acc
    else if isDuplicateContent r.document acc then
      (if maxRetrievedDocs ≤ acc.length then acc else qualityGo rest acc)
    else
      (if maxRetrievedDocs ≤ (acc ++ [r]).length then acc ++ [r]
       else qualityGo rest (acc ++ [r]))

/-- `MedicalRetrievalEngine._apply_quality_filters`. -/
def applyQualityFilters (ranked : List RankedResult) : List RankedResult :=
  if ranked.isEmpty then [] else qualityGo ranked []

/-- The retrieval context handed to the response generator: the processed
query, the ranked documents, and the retrieval-metadata confidence. -/
structure RetrievalContext where
  query : QueryResult
  documents : List RankedResult
  retrievalConfidence : ℚ
deriving DecidableEq, Repr

/-- The generated-response record (the assembled `response_text`, `sources`
and timestamp are outside every claim and omitted; all decision fields are
kept). -/
structure GeneratedResponse where
  responseType : String
  confidence : ℚ
  disclaimers : List String
  recommendations : List String
  emergencyAlert : Bool
deriving DecidableEq, Repr

/-- `MedicalResponseGenerator._determine_response_type`: emergency first,
then missing documents, then the query-type specific strategies. -/
def determineResponseType (qi : QueryResult) (docs : List RankedResult) : String :=
  if qi.emergencyDetected then "emergency_alert"
  else if docs.isEmpty then "insufficient_information"
  else if qi.queryType = "symptom_inquiry" then "symptom_guidance"
  else if qi.queryType = "prevention_inquiry" then "prevention_guidance"
  else "general_medical"

/-- `MedicalResponseGenerator.add_medical_disclaimers`: pick the disclaimer
bank for the detected language (English for `english`, `mixed` or
undetected), always add the general disclaimer, add the emergency one for
emergency alerts and the pregnancy one when the query concerns pregnancy. -/
def addMedicalDisclaimers (qi : QueryResult) (responseType : String) : List String :=
  let lang := (qi.metadata.bind QueryMetadata.language).getD "english"
  let bank := if lang = "bengali" then bengaliDisclaimers
    else if lang = "hindi" then hindiDisclaimers
    else englishDisclaimers
  let specialPops := (qi.metadata.map QueryMetadata.specialPopulations).getD []
  [bank.general] ++
  (if responseType = "emergency_alert" then [bank.emergency] else []) ++
  (if "pregnancy" ∈ specialPops then [bank.pregnancy] else [])

/-- `MedicalResponseGenerator._is_malaria_related`: at least two symptoms in
the malaria profile, or `malaria` mentioned in one of the top two
documents. -/
def isMalariaRelated (symptoms : List String) (docs : List RankedResult) : Bool :=
  let profile : List String := ["fever", "chills", "headache", "muscle aches",
    "nausea", "vomiting"]
  let ql := (symptoms.map (fun s => String.mk (pyLower s.data))).dedup
  if 2 ≤ (ql.filter (· ∈ profile)).length then true
  else (docs.take 2).any fun d => subOf "malaria".data (pyLower d.document.content.data)

/-- `MedicalResponseGenerator._generate_recommendations`. -/
def generateRecommendations (qi : QueryResult) (docs : List RankedResult)
    (responseType : String) : List String :=
  if responseType = "emergency_alert" then
    ["Seek immediate emergency medical care",
     "Do not delay treatment",
     "Call emergency services if available"]
  else if responseType = "symptom_guidance" then
    ["Consult with a healthcare provider for proper evaluation"] ++
    (if qi.symptoms.any (fun s => s = "fever" || s = "high fever") then
      ["Monitor your temperature regularly",
       "Stay hydrated with plenty of fluids",
       "Get medical testing if fever persists beyond 2-3 days"]
     else []) ++
    (if isMalariaRelated qi.symptoms docs then
      ["Get tested for malaria with a blood test",
       "Avoid self-medication",
       "Seek medical attention within 24 hours if in a malaria-endemic area"]
     else []) ++
    ["Monitor symptoms and seek care if they worsen"]
  else
    ["Consult with a qualified healthcare provider",
     "Follow professional medical advice",
     "Seek care if symptoms persist or worsen"]

/-- `MedicalResponseGenerator._calculate_response_confidence`. -/
def calcResponseConfidence (qi : QueryResult) (docs : List RankedResult)
    (retrievalConfidence : ℚ) (responseType : String) : ℚ :=
  let c := qi.confidence * (3/10) + retrievalConfidence * (4/10)
  let c := if !docs.isEmpty then
      c + ((docs.map RankedResult.finalScore).sum / docs.length) * (2/10)
    else c
  let c := if responseType = "emergency_alert" then c + 1/10
    else if responseType = "insufficient_information" then max (c * (1/2)) (1/10)
    else c
  min c 1

/-- `MedicalResponseGenerator.generate_response` (decision fields). -/
def generateResponse (ctx : RetrievalContext) : GeneratedResponse :=
  let rt := determineResponseType ctx.query ctx.documents
  { responseType := rt,
    confidence := calcResponseConfidence ctx.query ctx.documents ctx.retrievalConfidence rt,
    disclaimers := addMedicalDisclaimers ctx.query rt,
    recommendations := generateRecommendations ctx.query ctx.documents rt,
    emergencyAlert := rt = "emergency_alert" }

/-- `MedicalResponseGenerator._generate_error_response`: the fallback
response produced when response generation raises; it always carries the
general English disclaimer. -/
def errorResponse : GeneratedResponse :=
  { responseType := "error", confidence := 0,
    disclaimers := [englishDisclaimers.general],
    recommendations := ["Consult with a qualified healthcare provider"],
    emergencyAlert := false }

/-- A membership witness makes a filtered list nonempty. -/
theorem filter_length_pos {α : Type} (p : α → Bool) (l : List α)
    (h : ∃ s ∈ l, p s = true) : 0 < (l.filter p).length := by
  rcases h with ⟨s, hs, hp⟩
  have : s ∈ l.filter p := List.mem_filter.mpr ⟨hs, hp⟩
  exact List.length_pos.mpr fun hnil => by simp [hnil] at this

/-- The dengue threshold chain returns the emergency tier whenever some
symptom lies in the emergency set. -/
theorem dengueAssess_emergency (K : TierConstants) (syms : List String)
    (h : ∃ s ∈ syms, s ∈ K.emergency) :
    (dengueAssessSeverity K syms).severity = "emergency" ∧
    (dengueAssessSeverity K syms).confidence = 95/100 := by
  have hpos : 0 < (syms.filter (fun s => decide (s ∈ K.emergency))).length := by
    refine filter_length_pos _ _ ?_
    rcases h with ⟨s, hs, hm⟩
    exact ⟨s, hs, by simpa using hm⟩
  constructor <;> simp [dengueAssessSeverity, tierTally, hpos]

/-- The TB threshold chain returns the emergency tier whenever some symptom
lies in the emergency set. -/
theorem tbAssess_emergency (K : TierConstants) (syms : List String)
    (h : ∃ s ∈ syms, s ∈ K.emergency) :
    (tbAssessSeverity K syms).severity = "emergency" ∧
    (tbAssessSeverity K syms).confidence = 95/100 := by
  have hpos : 0 < (syms.filter (fun s => decide (s ∈ K.emergency))).length := by
    refine filter_length_pos _ _ ?_
    rcases h with ⟨s, hs, hm⟩
    exact ⟨s, hs, by simpa using hm⟩
  constructor <;> simp [tbAssessSeverity, tierTally, hpos]

/-- The flu threshold chain returns the emergency tier whenever some symptom
lies in the emergency set. -/
theorem fluAssess_emergency (K : TierConstants) (syms : List String)
    (h : ∃ s ∈ syms, s ∈ K.emergency) :
    (fluAssessSeverity K syms).severity = "emergency" ∧
    (fluAssessSeverity K syms).confidence = 95/100 := by
  have hpos : 0 < (syms.filter (fun s => decide (s ∈ K.emergency))).length := by
    refine filter_length_pos _ _ ?_
    rcases h with ⟨s, hs, hm⟩
    exact ⟨s, hs, by simpa using hm⟩
  constructor <;> simp [fluAssessSeverity, tierTally, hpos]

/-- Claim C1: for every disease checker (dengue, tuberculosis, viral flu;
the Bengali and Hindi variants share character-identical `assess` methods)
and every symptom list containing at least one tag of that disease's
emergency tier, `assess_severity` returns severity `emergency` with
confidence `0.95`, regardless of the other tiers' counts.  The
`ViralFluConstants` tier sets are not present in the sources, so the flu
part quantifies over every tier partition. -/
theorem emergency_tier_dominates_assessment :
    (∀ syms : List String, (∃ s ∈ syms, s ∈ dengueConstants.emergency) →
      (dengueAssessSeverity dengueConstants syms).severity = "emergency" ∧
      (dengueAssessSeverity dengueConstants syms).confidence = 95/100) ∧
    (∀ syms : List String, (∃ s ∈ syms, s ∈ tbConstants.emergency) →
      (tbAssessSeverity tbConstants syms).severity = "emergency" ∧
      (tbAssessSeverity tbConstants syms).confidence = 95/100) ∧
    (∀ (K : TierConstants) (syms : List String), (∃ s ∈ syms, s ∈ K.emergency) →
      (fluAssessSeverity K syms).severity = "emergency" ∧
      (fluAssessSeverity K syms).confidence = 95/100) :=
  ⟨fun syms h => dengueAssess_emergency _ syms h,
   fun syms h => tbAssess_emergency _ syms h,
   fun K syms h => fluAssess_emergency K syms h⟩

/-- Concrete instance of C1: a single emergency-tier tag forces the
emergency tier for each of the three diseases. -/
theorem emergency_tier_dominates_assessment_witness :
    ("severe bleeding" ∈ dengueConstants.emergency ∧
      (dengueAssessSeverity dengueConstants
        ["severe bleeding", "fatigue", "nausea"]).severity = "emergency") ∧
    ("coughing blood" ∈ tbConstants.emergency ∧
      (tbAssessSeverity tbConstants ["coughing blood", "cough"]).severity = "emergency") ∧
    ((fluAssessSeverity ⟨["breathing failure"], [], ["cough"]⟩
        ["breathing failure", "cough"]).severity = "emergency") :=
  ⟨⟨by decide,
    (emergency_tier_dominates_assessment.1 ["severe bleeding", "fatigue", "nausea"]
      ⟨"severe bleeding", by decide, by decide⟩).1⟩,
   ⟨by decide,
    (emergency_tier_dominates_assessment.2.1 ["coughing blood", "cough"]
      ⟨"coughing blood", by decide, by decide⟩).1⟩,
   (emergency_tier_dominates_assessment.2.2 ⟨["breathing failure"], [], ["cough"]⟩
      ["breathing failure", "cough"]
      ⟨"breathing failure", by decide, by decide⟩).1⟩

/-- Dropping a predicate-true prefix of an all-true list gives the empty
list. -/
theorem dropWhile_eq_nil_of_all {α : Type} (p : α → Bool) (l : List α)
    (h : ∀ c ∈ l, p c = true) : l.dropWhile p = [] := by
  induction l with
  | nil => rfl
  | cons c cs ih =>
    have hc := h c (List.mem_cons_self c cs)
    simp only [List.dropWhile_cons, hc, if_true]
    exact ih fun d hd => h d (List.mem_cons_of_mem _ hd)

/-- Stripping an all-whitespace string yields the empty string. -/
theorem pyStrip_all_space (l : List Char) (h : ∀ c ∈ l, isPySpace c = true) :
    pyStrip l = [] := by
  simp [pyStrip, dropWhile_eq_nil_of_all _ _ h]

/-- Claim C4: an empty or whitespace-only query short-circuits
`process_query` to the rejected invalid-query result (the `InputError`
condition): the result carries the `Empty query provided` error and the
`invalid` query type instead of any normal processed-query content. -/
theorem empty_query_rejected (q : String) (h : ∀ c ∈ q.data, isPySpace c = true) :
    processQuery q = emptyQueryResult q ∧
    (processQuery q).error = some "Empty query provided" ∧
    (processQuery q).queryType = "invalid" ∧
    (processQuery q).symptoms = [] ∧
    (processQuery q).confidence = 0 := by
  have hstrip : (pyStrip q.data).isEmpty = true := by
    simp [pyStrip_all_space q.data h]
  have hmain : processQuery q = emptyQueryResult q := by
    simp [processQuery, hstrip]
  exact ⟨hmain, by simp [hmain, emptyQueryResult], by simp [hmain, emptyQueryResult],
    by simp [hmain, emptyQueryResult], by simp [hmain, emptyQueryResult]⟩

/-- Concrete instance of C4: the whitespace query `"  "` is rejected. -/
theorem empty_query_rejected_witness :
    processQuery "  " = emptyQueryResult "  " ∧
    (processQuery "  ").queryType = "invalid" :=
  ⟨(empty_query_rejected "  " (by decide)).1,
   (empty_query_rejected "  " (by decide)).2.2.1⟩

/-- The response-type priority in the specification's own words (spec-side
definition, to be compared with the implementation). -/
def specResponseType (emergencyDetected : Bool) (noDocuments : Bool)
    (queryType : String) : String :=
  if emergencyDetected then "emergency_alert"
  else if noDocuments then "insufficient_information"
  else if queryType = "symptom_inquiry" then "symptom_guidance"
  else if queryType = "prevention_inquiry" then "prevention_guidance"
  else "general_medical"

/-- Claim C5: `generate_response` selects `response_type` deterministically
by the documented priority: emergency alert on a detected emergency, then
insufficient information on an empty ranked-document list, then the
symptom/prevention guidance types by query type, else general medical; the
`emergency_alert` flag of the response equals that verdict. -/
theorem response_type_priority (ctx : RetrievalContext) :
    (generateResponse ctx).responseType =
      specResponseType ctx.query.emergencyDetected ctx.documents.isEmpty
        ctx.query.queryType ∧
    ((generateResponse ctx).emergencyAlert = true ↔
      (generateResponse ctx).responseType = "emergency_alert") := by
  constructor
  · simp [generateResponse, determineResponseType, specResponseType]
  · simp [generateResponse]

/-- Claim C2: whenever emergency detection succeeds with a non-empty
indicator list, `classify_query_type` returns `emergency` — both on the
`process_query` path (flag passed in) and on the auto-detect path —
regardless of the symptoms, medical keywords or prevention keywords also
present in the query. -/
theorem emergency_short_circuits_classification (q : String) (syms : List String)
    (b : Bool) (inds : List String)
    (hdet : detectEmergencyIntent q = .ok (b, inds)) (hne : inds ≠ []) :
    classifyQueryType q syms (some b) = .ok "emergency" ∧
    classifyQueryType q syms none = .ok "emergency" := by
  have hb : b = true := by
    unfold detectEmergencyIntent at hdet
    split at hdet
    · simp only [Except.ok.injEq, Prod.mk.injEq] at hdet
      exact absurd hdet.2.symm hne
    · split at hdet
      · exact absurd hdet (by simp)
      · simp only [Except.ok.injEq, Prod.mk.injEq] at hdet
        rcases hdet with ⟨hb, hi⟩
        subst hi
        rw [← hb]
        simpa [List.isEmpty_iff] using hne
  subst hb
  constructor
  · rfl
  · unfold classifyQueryType
    rw [hdet]
    rfl

/-- Concrete instance of C2: the query `unconscious` yields the indicator
list `[unconscious]` and is classified as an emergency. -/
theorem emergency_short_circuits_classification_witness :
    detectEmergencyIntent "unconscious" = .ok (true, ["unconscious"]) ∧
    classifyQueryType "unconscious" [] (some true) = .ok "emergency" ∧
    classifyQueryType "unconscious" [] none = .ok "emergency" :=
  ⟨by rfl,
   (emergency_short_circuits_classification "unconscious" [] true ["unconscious"]
      (by rfl) (by decide)).1,
   (emergency_short_circuits_classification "unconscious" [] true ["unconscious"]
      (by rfl) (by decide)).2⟩

/-- Claim C10 (code bug): the emergency cue pattern
`\b(severe|extreme|unbearable)\s+(pain|headache|vomiting)\b` has two capture
groups, so `re.findall` returns tuples and `detect_emergency_intent`'s
`ind.strip()` raises `AttributeError`.  On the query `help severe pain` —
which contains the standalone cue word `help` — detection therefore raises
instead of returning `(True, [... 'help' ...])`, and `process_query` falls
into its exception handler: the query is typed `error` with
`emergency_detected = False` rather than `emergency`. -/
theorem severe_pain_crashes_emergency_detection :
    detectEmergencyIntent "help severe pain" =
      .error "AttributeError: tuple object has no attribute strip" ∧
    (processQuery "help severe pain").queryType = "error" ∧
    (processQuery "help severe pain").emergencyDetected = false ∧
    detectEmergencyIntent "please help me avoid mosquito bites" =
      .ok (true, ["help"]) := by
  refine ⟨by rfl, ?_, ?_, by rfl⟩ <;> rfl


/-- The canonical English tag inventory of the malaria lexicon used by the
`DataProcessor`: the English tier keywords and the translation targets of
the Hindi and Bengali surface forms. -/
def canonicalEnglishTags : List String :=
  malariaEmergencySymptoms ++ malariaSevereSymptoms ++ malariaEarlySymptoms ++
  hindiSymptoms.map Prod.snd ++ bengaliSymptoms.map Prod.snd

/-- A fold that either keeps its accumulator or replaces it by the current
element can only produce an element of the list (or the initial value). -/
theorem foldl_choice_mem {α : Type} (cond : Option α → α → Bool) :
    ∀ (l : List α) (acc : Option α) (q : α),
      List.foldl (fun best x => if cond best x then some x else best) acc l = some q →
      q ∈ l ∨ acc = some q := by
  intro l
  induction l with
  | nil => intro acc q h; exact Or.inr h
  | cons x xs ih =>
    intro acc q h
    simp only [List.foldl_cons] at h
    rcases ih _ q h with hmem | hacc
    · exact Or.inl (List.mem_cons_of_mem x hmem)
    · by_cases hc : cond acc x = true
      · rw [if_pos hc] at hacc
        exact Or.inl (Option.some.inj hacc ▸ List.mem_cons_self x xs)
      · rw [if_neg hc] at hacc
        exact Or.inr hacc

/-- `pickLongest` only returns elements of its pattern list. -/
theorem pickLongest_mem (pats : List (List Char)) (txt p : List Char)
    (h : pickLongest pats txt = some p) : p ∈ pats := by
  unfold pickLongest at h
  rcases foldl_choice_mem
      (fun best x => !x.isEmpty && x.isPrefixOf txt &&
        (match best with | none => true | some b => decide (b.length < x.length)))
      pats none p h with hmem | hacc
  · exact hmem
  · exact absurd hacc (by simp)

/-- Every slice emitted by `scanForms` is one of the patterns. -/
theorem scanForms_mem (pats : List (List Char)) :
    ∀ (fuel : Nat) (txt m : List Char), m ∈ scanForms pats fuel txt → m ∈ pats := by
  intro fuel
  induction fuel with
  | zero => intro txt m h; simp [scanForms] at h
  | succ n ih =>
    intro txt m h
    match txt with
    | [] => simp [scanForms] at h
    | c :: cs =>
      rw [scanForms] at h
      revert h
      cases hp : pickLongest pats (c :: cs) with
      | none => exact fun h => ih cs m h
      | some p =>
        intro h
        rcases List.mem_cons.mp h with hq | hq
        · exact hq ▸ pickLongest_mem pats (c :: cs) p hp
        · exact ih _ m hq

/-- A successful association-list lookup returns one of the stored values. -/
theorem lookup_mem_snd {α β : Type} [BEq α] (k : α) (l : List (α × β)) (v : β)
    (h : List.lookup k l = some v) : v ∈ l.map Prod.snd := by
  induction l with
  | nil => simp [List.lookup] at h
  | cons p ps ih =>
    rw [List.lookup] at h
    split at h
    · simp [← Option.some.inj h]
    · simp [ih h]

/-- A key occurring in an association list makes its lookup succeed. -/
theorem lookup_isSome_of_mem_fst {α β : Type} [BEq α] [LawfulBEq α]
    (k : α) (l : List (α × β)) (h : k ∈ l.map Prod.fst) :
    (List.lookup k l).isSome = true := by
  induction l with
  | nil => simp at h
  | cons p ps ih =>
    rw [List.lookup]
    split
    · simp
    · rename_i hk
      rcases List.mem_map.mp h with ⟨q, hq, hfst⟩
      rcases List.mem_cons.mp hq with rfl | hq2
      · exact absurd (beq_iff_eq.mpr hfst.symm) (by simp [hk])
      · exact ih (List.mem_map.mpr ⟨q, hq2, hfst⟩)

/-- The translation step sends every surface form of the full alternation to
a canonical English tag. -/
theorem translateSymptom_canonical (m : String) (h : m ∈ allSymptomForms) :
    translateSymptom m ∈ canonicalEnglishTags := by
  unfold translateSymptom
  cases hh : List.lookup m hindiSymptoms with
  | some e =>
    have he := lookup_mem_snd m hindiSymptoms e hh
    simp only [canonicalEnglishTags, List.mem_append]
    tauto
  | none =>
    cases hb : List.lookup m bengaliSymptoms with
    | some e =>
      have he := lookup_mem_snd m bengaliSymptoms e hb
      simp only [canonicalEnglishTags, List.mem_append]
      tauto
    | none =>
      have hnh : m ∉ hindiSymptoms.map Prod.fst := fun hm => by
        have := lookup_isSome_of_mem_fst m hindiSymptoms hm
        simp [hh] at this
      have hnb : m ∉ bengaliSymptoms.map Prod.fst := fun hm => by
        have := lookup_isSome_of_mem_fst m bengaliSymptoms hm
        simp [hb] at this
      simp only [allSymptomForms, List.mem_append] at h
      simp only [canonicalEnglishTags, List.mem_append]
      rcases h with ((((((h | h) | h) | h) | h) | h) | h)
      · tauto
      · tauto
      · tauto
      · exact absurd h hnh
      · tauto
      · exact absurd h hnb
      · tauto

/-- Claim C3 (amended): every element of the symptom list returned by
`extract_symptoms` is a canonical English tag of the lexicon — the
Hindi/Bengali surface forms are translated, English forms pass through.
(The original claim also asserted this for `detect_emergency_indicators`,
which in fact returns matched surface forms untranslated; see the
counterexample below and the repository's own
`test_bengali_emergency_detection`, which asserts that Bengali terms are
returned.) -/
theorem extract_symptoms_canonical (t s : String)
    (h : s ∈ dpExtractSymptoms t) : s ∈ canonicalEnglishTags := by
  unfold dpExtractSymptoms at h
  rw [List.mem_dedup] at h
  rcases List.mem_map.mp h with ⟨m, hm, hms⟩
  rw [List.mem_dedup] at hm
  rcases List.mem_map.mp hm with ⟨mc, hmc, hmcm⟩
  have hforms := scanForms_mem _ _ _ _ hmc
  rcases List.mem_map.mp hforms with ⟨f, hf, hfd⟩
  have hmf : m = f := by rw [← hmcm, ← hfd]
  rw [← hms, hmf]
  exact translateSymptom_canonical f hf

/-- Counterexample to C3 as stated: on the Bengali input `অজ্ঞান`
(unconscious), `detect_emergency_indicators` returns the raw Bengali
surface form itself, which is not a canonical English tag, and this value
flows into the `emergency_indicators` of the processed query. -/
theorem emergency_indicator_not_canonical :
    dpDetectEmergencyIndicators "অজ্ঞান" = ["অজ্ঞান"] ∧
    "অজ্ঞান" ∉ canonicalEnglishTags ∧
    (processQuery "অজ্ঞান").emergencyIndicators = ["অজ্ঞান"] :=
  ⟨by rfl, by decide, by rfl⟩

/-- Concrete instance of the amended C3: the Bengali query `জ্বর` (fever)
extracts the canonical English tag `fever`. -/
theorem extract_symptoms_canonical_witness :
    "fever" ∈ dpExtractSymptoms "জ্বর" ∧ "fever" ∈ canonicalEnglishTags :=
  ⟨by decide, extract_symptoms_canonical "জ্বর" "fever" (by decide)⟩

/-- The output of the quality-filter loop is its accumulator followed by a
subsequence of the remaining input. -/
theorem qualityGo_shape (l : List RankedResult) :
    ∀ acc, ∃ sub, qualityGo l acc = acc ++ sub ∧ sub.Sublist l := by
  induction l with
  | nil => intro acc; exact ⟨[], by simp [qualityGo], List.nil_sublist _⟩
  | cons r rest ih =>
    intro acc
    rw [qualityGo]
    by_cases h1 : r.finalScore < similarityThreshold
    · rw [if_pos h1]
      rcases ih acc with ⟨sub, heq, hsub⟩
      exact ⟨sub, heq, hsub.cons r⟩
    · rw [if_neg h1]
      by_cases h2 : r.document.content.data.length < 20
      · rw [if_pos h2]
        rcases ih acc with ⟨sub, heq, hsub⟩
        exact ⟨sub, heq, hsub.cons r⟩
      · rw [if_neg h2]
        by_cases h3 : isDuplicateContent r.document acc = true
        · rw [if_pos h3]
          by_cases h4 : maxRetrievedDocs ≤ acc.length
          · rw [if_pos h4]
            exact ⟨[], by simp, List.nil_sublist _⟩
          · rw [if_neg h4]
            rcases ih acc with ⟨sub, heq, hsub⟩
            exact ⟨sub, heq, hsub.cons r⟩
        · rw [if_neg h3]
          by_cases h4 : maxRetrievedDocs ≤ (acc ++ [r]).length
          · rw [if_pos h4]
            exact ⟨[r], rfl, (List.nil_sublist rest).cons₂ r⟩
          · rw [if_neg h4]
            rcases ih (acc ++ [r]) with ⟨sub, heq, hsub⟩
            exact ⟨r :: sub, by rw [heq]; simp, hsub.cons₂ r⟩

/-- Claim C6: `rank_by_medical_relevance` returns its results sorted in
non-increasing order of `final_score`, and `_apply_quality_filters`
preserves that order (its output is again sorted). -/
theorem ranking_sorted_and_filter_preserves (results : List SearchResult)
    (querySymptoms : List String) (queryType : String) (emergencyDetected : Bool) :
    List.Sorted scoreGE
      (rankByMedicalRelevance results querySymptoms queryType emergencyDetected) ∧
    List.Sorted scoreGE
      (applyQualityFilters
        (rankByMedicalRelevance results querySymptoms queryType emergencyDetected)) := by
  have h1 : List.Sorted scoreGE
      (rankByMedicalRelevance results querySymptoms queryType emergencyDetected) := by
    unfold rankByMedicalRelevance
    split
    · exact List.sorted_nil
    · exact List.sorted_insertionSort scoreGE _
  refine ⟨h1, ?_⟩
  unfold applyQualityFilters
  split
  · exact List.sorted_nil
  · rcases qualityGo_shape _ [] with ⟨sub, heq, hsub⟩
    rw [heq, List.nil_append]
    exact List.Pairwise.sublist hsub h1

/-- The lowercase word-token set of a content string, as a finite set (the
specification's notion for the near-duplicate filter). -/
def tokenSet (s : String) : Finset String := (wordTokenList s).toFinset

/-- Token-set Jaccard similarity as the specification words it:
intersection size over union size of the lowercase word-token sets (zero
when both sets are empty, by the rational convention `x / 0 = 0`, matching
the code's `union > 0` guard). -/
def tokenJaccard (a b : String) : ℚ :=
  ((tokenSet a ∩ tokenSet b).card : ℚ) / ((tokenSet a ∪ tokenSet b).card : ℚ)

/-- Token-set Jaccard similarity is symmetric. -/
theorem tokenJaccard_comm (a b : String) : tokenJaccard a b = tokenJaccard b a := by
  unfold tokenJaccard
  rw [Finset.inter_comm, Finset.union_comm]

/-- The intersection size computed by `_is_duplicate_content` equals the
Jaccard numerator. -/
theorem filter_mem_length_eq_inter_card (wa wb : List String) (ha : wa.Nodup) :
    ((wa.filter (· ∈ wb)).length : ℚ) = ((wa.toFinset ∩ wb.toFinset).card : ℚ) := by
  norm_cast
  have hnodup : (wa.filter (· ∈ wb)).Nodup := ha.filter _
  rw [← List.toFinset_card_of_nodup hnodup]
  congr 1
  ext x
  simp [List.mem_filter]

/-- The union size computed by `_is_duplicate_content` equals the Jaccard
denominator. -/
theorem append_diff_length_eq_union_card (wa wb : List String)
    (ha : wa.Nodup) (hb : wb.Nodup) :
    (((wa ++ wb.filter (· ∉ wa)).length : ℚ)) = ((wa.toFinset ∪ wb.toFinset).card : ℚ) := by
  norm_cast
  have hnodup : (wa ++ wb.filter (· ∉ wa)).Nodup := by
    refine List.Nodup.append ha (hb.filter _) ?_
    intro x hxa hxf
    rcases List.mem_filter.mp hxf with ⟨_, hnot⟩
    simp at hnot
    exact hnot hxa
  rw [← List.toFinset_card_of_nodup hnodup]
  congr 1
  ext x
  simp [List.mem_filter]
  tauto

/-- A content whose lowercased text is empty has no word tokens. -/
theorem wordTokenList_nil_of_empty (s : String) (h : (pyLower s.data).length = 0) :
    wordTokenList s = [] := by
  unfold wordTokenList
  rw [List.length_eq_zero.mp h]
  rfl

/-- The Jaccard similarity against an empty token set is zero. -/
theorem tokenJaccard_zero_left (a b : String) (h : tokenSet a = ∅) :
    tokenJaccard a b = 0 := by
  unfold tokenJaccard
  rw [h]
  simp

/-- The Jaccard similarity with an empty right token set is zero. -/
theorem tokenJaccard_zero_right (a b : String) (h : tokenSet b = ∅) :
    tokenJaccard a b = 0 := by
  rw [tokenJaccard_comm]
  exact tokenJaccard_zero_left b a h

/-- The guarded similarity of `_is_duplicate_content` is exactly the
token-set Jaccard similarity. -/
theorem contentSimilarity_eq_tokenJaccard (a b : String) :
    contentSimilarity a b = tokenJaccard a b := by
  have hna : (wordTokenList a).Nodup := List.nodup_dedup _
  have hnb : (wordTokenList b).Nodup := List.nodup_dedup _
  unfold contentSimilarity
  dsimp only []
  split_ifs with h1 h2 h3
  · rw [show ((((wordTokenList a).filter (· ∈ wordTokenList b)).length : ℚ)) =
        (((wordTokenList a).toFinset ∩ (wordTokenList b).toFinset).card : ℚ) from
      filter_mem_length_eq_inter_card _ _ hna,
      show (((wordTokenList a ++ (wordTokenList b).filter (· ∉ wordTokenList a)).length : ℚ)) =
        (((wordTokenList a).toFinset ∪ (wordTokenList b).toFinset).card : ℚ) from
      append_diff_length_eq_union_card _ _ hna hnb]
    rfl
  · have hlen : (wordTokenList a ++
        (wordTokenList b).filter (· ∉ wordTokenList a)).length = 0 :=
      Nat.eq_zero_of_not_pos h3
    rw [List.length_append] at hlen
    have hwa : wordTokenList a = [] := List.length_eq_zero.mp (by omega)
    exact (tokenJaccard_zero_left a b (by simp [tokenSet, hwa])).symm
  · simp only [Bool.and_eq_true, Bool.not_eq_true', List.isEmpty_iff] at h2
    rw [not_and_or] at h2
    rcases h2 with h | h
    · have hh : (wordTokenList a).isEmpty = true := by
        cases hv : (wordTokenList a).isEmpty
        · exact absurd hv h
        · rfl
      exact (tokenJaccard_zero_left a b
        (by simp [tokenSet, List.isEmpty_iff.mp hh])).symm
    · have hh : (wordTokenList b).isEmpty = true := by
        cases hv : (wordTokenList b).isEmpty
        · exact absurd hv h
        · rfl
      exact (tokenJaccard_zero_right a b
        (by simp [tokenSet, List.isEmpty_iff.mp hh])).symm
  · simp only [Bool.and_eq_true, decide_eq_true_eq] at h1
    rw [not_and_or] at h1
    rcases h1 with h | h
    · have : (pyLower a.data).length = 0 := by omega
      exact (tokenJaccard_zero_left a b
        (by simp [tokenSet, wordTokenList_nil_of_empty a this])).symm
    · have : (pyLower b.data).length = 0 := by omega
      exact (tokenJaccard_zero_right a b
        (by simp [tokenSet, wordTokenList_nil_of_empty b this])).symm

/-- When the duplicate check rejects nothing, the candidate's Jaccard
similarity with every accepted result is at most `0.8`. -/
theorem isDuplicateContent_false_all (r : MedDocument) (acc : List RankedResult)
    (h : isDuplicateContent r acc = false) :
    ∀ a ∈ acc, tokenJaccard r.content a.document.content ≤ 8/10 := by
  intro a ha
  by_contra hc
  push_neg at hc
  have htrue : isDuplicateContent r acc = true := by
    unfold isDuplicateContent
    rw [List.any_eq_true]
    refine ⟨a, ha, decide_eq_true ?_⟩
    rw [contentSimilarity_eq_tokenJaccard]
    exact hc
  rw [htrue] at h
  cases h

/-- The quality-filter loop keeps its accepted list pairwise
non-duplicate. -/
theorem qualityGo_pairwise (l : List RankedResult) :
    ∀ acc, List.Pairwise
        (fun a b : RankedResult =>
          tokenJaccard a.document.content b.document.content ≤ 8/10) acc →
      List.Pairwise
        (fun a b : RankedResult =>
          tokenJaccard a.document.content b.document.content ≤ 8/10)
        (qualityGo l acc) := by
  induction l with
  | nil => intro acc hacc; simpa [qualityGo] using hacc
  | cons r rest ih =>
    intro acc hacc
    rw [qualityGo]
    by_cases h1 : r.finalScore < similarityThreshold
    · rw [if_pos h1]; exact ih acc hacc
    · rw [if_neg h1]
      by_cases h2 : r.document.content.data.length < 20
      · rw [if_pos h2]; exact ih acc hacc
      · rw [if_neg h2]
        by_cases h3 : isDuplicateContent r.document acc = true
        · rw [if_pos h3]
          by_cases h4 : maxRetrievedDocs ≤ acc.length
          · rw [if_pos h4]; exact hacc
          · rw [if_neg h4]; exact ih acc hacc
        · rw [if_neg h3]
          have hfalse : isDuplicateContent r.document acc = false :=
            Bool.eq_false_iff.mpr h3
          have happ : List.Pairwise
              (fun a b : RankedResult =>
                tokenJaccard a.document.content b.document.content ≤ 8/10)
              (acc ++ [r]) := by
            rw [List.pairwise_append]
            refine ⟨hacc, List.pairwise_singleton _ _, ?_⟩
            intro a ha b hb
            rw [List.mem_singleton.mp hb, tokenJaccard_comm]
            exact isDuplicateContent_false_all r.document acc hfalse a ha
          by_cases h4 : maxRetrievedDocs ≤ (acc ++ [r]).length
          · rw [if_pos h4]; exact happ
          · rw [if_neg h4]; exact ih _ happ

/-- Claim C7: any two documents both present in the quality-filtered
ranking output have token-set Jaccard similarity at most `0.8`; documents
more similar than that never both survive the near-duplicate filter. -/
theorem near_duplicates_never_coexist (ranked : List RankedResult) :
    List.Pairwise
      (fun a b : RankedResult =>
        tokenJaccard a.document.content b.document.content ≤ 8/10)
      (applyQualityFilters ranked) := by
  unfold applyQualityFilters
  split
  · exact List.Pairwise.nil
  · exact qualityGo_pairwise ranked [] List.Pairwise.nil

/-- The disclaimer bank selected for a query's detected language (Bengali,
Hindi, or English for `english`/`mixed`/undetected), as in
`add_medical_disclaimers`. -/
def disclaimerBankFor (qi : QueryResult) : DisclaimerBank :=
  let lang := (qi.metadata.bind QueryMetadata.language).getD "english"
  if lang = "bengali" then bengaliDisclaimers
  else if lang = "hindi" then hindiDisclaimers
  else englishDisclaimers

/-- Every bank's three disclaimers are pairwise distinct strings. -/
theorem disclaimerBank_distinct (qi : QueryResult) :
    disclaimerBankFor qi ∈ [englishDisclaimers, bengaliDisclaimers, hindiDisclaimers] ∧
    (disclaimerBankFor qi).emergency ≠ (disclaimerBankFor qi).general ∧
    (disclaimerBankFor qi).emergency ≠ (disclaimerBankFor qi).pregnancy := by
  unfold disclaimerBankFor
  dsimp only []
  split_ifs <;> exact ⟨by simp, by decide, by decide⟩

/-- The disclaimer list built by `add_medical_disclaimers` in terms of the
selected bank. -/
theorem addMedicalDisclaimers_eq (qi : QueryResult) (rt : String) :
    addMedicalDisclaimers qi rt =
      [(disclaimerBankFor qi).general] ++
      (if rt = "emergency_alert" then [(disclaimerBankFor qi).emergency] else []) ++
      (if "pregnancy" ∈ (qi.metadata.map QueryMetadata.specialPopulations).getD []
       then [(disclaimerBankFor qi).pregnancy] else []) := by
  unfold addMedicalDisclaimers disclaimerBankFor
  rfl

/-- Claim C8: every generated response's disclaimer list, drawn from the
language-selected bank, contains the general disclaimer; it contains the
emergency disclaimer exactly when the response type is `emergency_alert`;
it contains the pregnancy disclaimer whenever the query's special
populations include pregnancy; and the fallback response produced when
generation fails internally still carries a disclaimer. -/
theorem disclaimers_always_present (ctx : RetrievalContext) :
    (disclaimerBankFor ctx.query).general ∈ (generateResponse ctx).disclaimers ∧
    ((disclaimerBankFor ctx.query).emergency ∈ (generateResponse ctx).disclaimers ↔
      (generateResponse ctx).responseType = "emergency_alert") ∧
    ("pregnancy" ∈ (ctx.query.metadata.map QueryMetadata.specialPopulations).getD [] →
      (disclaimerBankFor ctx.query).pregnancy ∈ (generateResponse ctx).disclaimers) ∧
    errorResponse.disclaimers ≠ [] := by
  have hdis : (generateResponse ctx).disclaimers =
      addMedicalDisclaimers ctx.query (generateResponse ctx).responseType := rfl
  rcases disclaimerBank_distinct ctx.query with ⟨_, hne1, hne2⟩
  rw [hdis, addMedicalDisclaimers_eq]
  refine ⟨by simp, ⟨?_, ?_⟩, ?_, by simp [errorResponse]⟩
  · intro hmem
    by_contra hrt
    rw [if_neg hrt] at hmem
    simp at hmem
    rcases hmem with h | h
    · exact hne1 h
    · rcases h with ⟨hp, he⟩
      exact hne2 he
  · intro hrt
    rw [if_pos hrt]
    simp
  · intro hpreg
    rw [if_pos hpreg]
    simp

/-- Concrete instance of C8: an emergency pregnancy query in English gets
the general, emergency and pregnancy disclaimers. -/
theorem disclaimers_always_present_witness :
    (let md : QueryMetadata :=
      { duration := none, severityIndicators := [], medicalKeywords := [],
        temporalExpressions := [], specialPopulations := ["pregnancy"],
        language := some "english" }
     let qi : QueryResult :=
      { originalQuery := "q", processedQuery := "q", symptoms := [],
        queryType := "emergency", emergencyDetected := true,
        emergencyIndicators := ["help"], confidence := 1,
        metadata := some md, error := none }
     let ctx : RetrievalContext := ⟨qi, [], 0⟩
     englishDisclaimers.pregnancy ∈ (generateResponse ctx).disclaimers ∧
     englishDisclaimers.general ∈ (generateResponse ctx).disclaimers) := by
  refine ⟨?_, ?_⟩
  · exact (disclaimers_always_present _).2.2.1 (by decide)
  · exact (disclaimers_always_present _).1

/-- A list whose last character (if any) is not whitespace. -/
def noTrailingSpace (l : List Char) : Prop :=
  ∀ ch, l.getLast? = some ch → isPySpace ch = false

/-- Whitespace collapse leaves a whitespace-free list unchanged. -/
theorem collapseGo_nonspace (rs : List Char)
    (h : ∀ r ∈ rs, isPySpace r = false) : ∀ b, collapseGo b rs = rs := by
  induction rs with
  | nil => intro b; rfl
  | cons r rest ih =>
    intro b
    rw [collapseGo, h r (List.mem_cons_self r rest)]
    simp only [Bool.false_eq_true, if_false]
    rw [ih fun x hx => h x (List.mem_cons_of_mem r hx)]

/-- Whitespace collapse distributes over appending a whitespace-free
suffix. -/
theorem collapseGo_append (rs : List Char)
    (h : ∀ r ∈ rs, isPySpace r = false) :
    ∀ (xs : List Char) (b : Bool), collapseGo b (xs ++ rs) = collapseGo b xs ++ rs := by
  intro xs
  induction xs with
  | nil => intro b; simp [collapseGo, collapseGo_nonspace rs h b]
  | cons x xt ih =>
    intro b
    rw [List.cons_append, collapseGo, collapseGo]
    by_cases hx : isPySpace x = true
    · rw [hx]
      simp only [if_true]
      by_cases hb : b
      · rw [if_pos hb, if_pos hb, ih true]
      · rw [if_neg hb, if_neg hb, List.cons_append, ih true]
    · rw [Bool.eq_false_iff.mpr hx]
      simp only [Bool.false_eq_true, if_false]
      rw [List.cons_append, ih false]

/-- Dropping from the front distributes over an append whose suffix starts
with a character the predicate rejects. -/
theorem dropWhile_append_of_head {p : Char → Bool} (xs : List Char) (r : Char)
    (rs : List Char) (hr : p r = false) :
    (xs ++ r :: rs).dropWhile p = xs.dropWhile p ++ r :: rs := by
  rw [List.dropWhile_append]
  split
  · rename_i hemp
    rw [List.isEmpty_iff.mp hemp, List.nil_append, List.dropWhile_cons, hr]
    simp
  · rfl

/-- `dropWhile` keeps a list whose head the predicate rejects. -/
theorem dropWhile_cons_of_neg {p : Char → Bool} (r : Char) (rs : List Char)
    (hr : p r = false) : (r :: rs).dropWhile p = r :: rs := by
  rw [List.dropWhile_cons, hr]
  simp

/-- Stripping a list that ends in a non-whitespace character only trims its
front. -/
theorem pyStrip_concat_nonspace (xs : List Char) (a : Char)
    (ha : isPySpace a = false) :
    pyStrip (xs ++ [a]) = (xs ++ [a]).dropWhile isPySpace := by
  unfold pyStrip
  rw [dropWhile_append_of_head xs a [] ha, List.reverse_append]
  simp only [List.reverse_cons, List.reverse_nil, List.nil_append, List.singleton_append]
  rw [dropWhile_cons_of_neg a _ ha]
  simp [dropWhile_append_of_head xs a [] ha]

/-- Stripping after appending a non-whitespace run: the run survives and
only the front is trimmed. -/
theorem pyStrip_append_run (Y : List Char) (c : Char) (k : Nat)
    (hc : isPySpace c = false) (hk : 1 ≤ k) :
    pyStrip (Y ++ List.replicate k c) = Y.dropWhile isPySpace ++ List.replicate k c := by
  unfold pyStrip
  cases k with
  | zero => omega
  | succ n =>
    rw [List.replicate_succ, dropWhile_append_of_head Y c _ hc, List.reverse_append]
    have hrev : (c :: List.replicate n c).reverse = c :: List.replicate n c := by
      rw [← List.replicate_succ, List.reverse_replicate, List.replicate_succ]
    rw [hrev, List.cons_append, dropWhile_cons_of_neg c _ hc]
    rw [← List.cons_append, ← hrev, ← List.reverse_append, List.reverse_reverse, hrev]

/-- Characters produced by whitespace collapse come from the input or are
the space character. -/
theorem mem_collapseGo (x : Char) :
    ∀ (l : List Char) (b : Bool), x ∈ collapseGo b l → x ∈ l ∨ x = ' ' := by
  intro l
  induction l with
  | nil => intro b h; cases h
  | cons c cs ih =>
    intro b h
    rw [collapseGo] at h
    by_cases hc : isPySpace c = true
    · rw [hc] at h
      simp only [if_true] at h
      by_cases hb : b
      · rw [if_pos hb] at h
        rcases ih true h with h2 | h2
        · exact Or.inl (List.mem_cons_of_mem c h2)
        · exact Or.inr h2
      · rw [if_neg hb] at h
        rcases List.mem_cons.mp h with rfl | h2
        · exact Or.inr rfl
        · rcases ih true h2 with h3 | h3
          · exact Or.inl (List.mem_cons_of_mem c h3)
          · exact Or.inr h3
    · rw [Bool.eq_false_iff.mpr hc] at h
      simp only [Bool.false_eq_true, if_false] at h
      rcases List.mem_cons.mp h with rfl | h2
      · exact Or.inl (List.mem_cons_self x cs)
      · rcases ih false h2 with h3 | h3
        · exact Or.inl (List.mem_cons_of_mem c h3)
        · exact Or.inr h3

/-- Run removal on a pure run of the target character. -/
theorem rmRunsGo_replicate (t : Char) (k : Nat) (repl : List Char) :
    ∀ (n p : Nat), rmRunsGo t k repl p (List.replicate n t) = runEmit t k repl (p + n) := by
  intro n
  induction n with
  | zero => intro p; simp [List.replicate, rmRunsGo]
  | succ m ih =>
    intro p
    rw [List.replicate_succ, rmRunsGo]
    simp only [beq_self_eq_true, if_true]
    rw [ih (p + 1)]
    congr 1
    omega

/-- Run removal leaves a list without the target character unchanged. -/
theorem rmRunsGo_not_mem (t : Char) (k : Nat) (repl : List Char) :
    ∀ (l : List Char), t ∉ l → rmRunsGo t k repl 0 l = l := by
  intro l
  induction l with
  | nil => intro _; simp [rmRunsGo, runEmit]
  | cons c cs ih =>
    intro h
    rw [rmRunsGo]
    have hct : (c == t) = false := by
      simp only [beq_eq_false_iff_ne, ne_eq]
      intro hEq
      exact h (hEq ▸ List.mem_cons_self c cs)
    rw [hct]
    simp only [Bool.false_eq_true, if_false]
    rw [show runEmit t k repl 0 = [] from rfl, List.nil_append,
      ih fun hm => h (List.mem_cons_of_mem c hm)]

/-- Run removal erases an appended long run of the target character after a
list that does not contain it. -/
theorem rmRunsGo_append_run (t : Char) (k : Nat) (n : Nat) (hk : 2 ≤ k) (hn : k ≤ n) :
    ∀ (l : List Char), t ∉ l →
      rmRunsGo t k [] 0 (l ++ List.replicate n t) = l := by
  intro l
  induction l with
  | nil =>
    intro _
    rw [List.nil_append, rmRunsGo_replicate]
    simp only [runEmit, Nat.zero_add]
    rw [if_neg (by omega), if_pos (by omega)]
  | cons c cs ih =>
    intro h
    rw [List.cons_append, rmRunsGo]
    have hct : (c == t) = false := by
      simp only [beq_eq_false_iff_ne, ne_eq]
      intro hEq
      exact h (hEq ▸ List.mem_cons_self c cs)
    rw [hct]
    simp only [Bool.false_eq_true, if_false]
    rw [show runEmit t k [] 0 = [] from rfl, List.nil_append,
      ih fun hm => h (List.mem_cons_of_mem c hm)]

/-- The cleaning pipeline erases a run of at least two `!` or `?` appended
to a text that contains neither character and does not end in whitespace. -/
theorem cleanTextL_append_run (t : List Char) (k : Nat) (c : Char)
    (hc : c = '!' ∨ c = '?') (hk : 2 ≤ k)
    (hne : '!' ∉ t) (hnq : '?' ∉ t)
    (htrail : ∀ ch, t.getLast? = some ch → isPySpace ch = false) :
    cleanTextL (t ++ List.replicate k c) = cleanTextL t := by
  have hcs : isPySpace c = false := by rcases hc with rfl | rfl <;> rfl
  have hrep_nonspace : ∀ r ∈ List.replicate k c, isPySpace r = false := fun r hr =>
    (List.eq_of_mem_replicate hr) ▸ hcs
  have hcollapse : collapseWs (t ++ List.replicate k c) =
      collapseWs t ++ List.replicate k c :=
    collapseGo_append _ hrep_nonspace t false
  have hmem_ex : ∀ x ∈ (collapseWs t).dropWhile isPySpace, x ∈ t ∨ x = ' ' := by
    intro x hx
    exact mem_collapseGo x t false ((List.dropWhile_sublist _).mem hx)
  have hX1 : '!' ∉ (collapseWs t).dropWhile isPySpace := by
    intro hmem
    rcases hmem_ex _ hmem with h | h
    · exact hne h
    · cases h
  have hX2 : '?' ∉ (collapseWs t).dropWhile isPySpace := by
    intro hmem
    rcases hmem_ex _ hmem with h | h
    · exact hnq h
    · cases h
  have hstripL : pyStrip (collapseWs (t ++ List.replicate k c)) =
      (collapseWs t).dropWhile isPySpace ++ List.replicate k c := by
    rw [hcollapse]
    exact pyStrip_append_run _ c k hcs (by omega)
  have hstripR : pyStrip (collapseWs t) = (collapseWs t).dropWhile isPySpace := by
    rcases t.eq_nil_or_concat with rfl | ⟨Z, a, rfl⟩
    · rfl
    · have ha : isPySpace a = false := htrail a (by simp)
      have hYsplit : collapseWs (Z ++ [a]) = collapseWs Z ++ [a] :=
        collapseGo_append [a] (by simpa using ha) Z false
      simp only [List.concat_eq_append]
      rw [hYsplit, pyStrip_concat_nonspace _ a ha, ← hYsplit]
  have hrep_mem : ∀ x ∈ List.replicate k c, x = c := fun x hx =>
    List.eq_of_mem_replicate hx
  have key : rmRuns '?' 2 [] (rmRuns '!' 2 []
        (pyStrip (collapseWs (t ++ List.replicate k c)))) =
      rmRuns '?' 2 [] (rmRuns '!' 2 [] (pyStrip (collapseWs t))) := by
    rw [hstripL, hstripR]
    rcases hc with rfl | rfl
    · rw [show rmRuns '!' 2 [] ((collapseWs t).dropWhile isPySpace ++
          List.replicate k '!') = (collapseWs t).dropWhile isPySpace from
        rmRunsGo_append_run '!' 2 k le_rfl hk _ hX1,
        show rmRuns '!' 2 [] ((collapseWs t).dropWhile isPySpace) =
          (collapseWs t).dropWhile isPySpace from rmRunsGo_not_mem '!' 2 [] _ hX1]
    · have hq1 : '!' ∉ (collapseWs t).dropWhile isPySpace ++ List.replicate k '?' := by
        intro hmem
        rcases List.mem_append.mp hmem with h | h
        · exact hX1 h
        · cases hrep_mem _ h
      rw [show rmRuns '!' 2 [] ((collapseWs t).dropWhile isPySpace ++
          List.replicate k '?') = (collapseWs t).dropWhile isPySpace ++
          List.replicate k '?' from rmRunsGo_not_mem '!' 2 [] _ hq1,
        show rmRuns '!' 2 [] ((collapseWs t).dropWhile isPySpace) =
          (collapseWs t).dropWhile isPySpace from rmRunsGo_not_mem '!' 2 [] _ hX1,
        show rmRuns '?' 2 [] ((collapseWs t).dropWhile isPySpace ++
          List.replicate k '?') = (collapseWs t).dropWhile isPySpace from
        rmRunsGo_append_run '?' 2 k le_rfl hk _ hX2,
        show rmRuns '?' 2 [] ((collapseWs t).dropWhile isPySpace) =
          (collapseWs t).dropWhile isPySpace from rmRunsGo_not_mem '?' 2 [] _ hX2]
  unfold cleanTextL
  dsimp only []
  rw [show rmRuns '?' 2 [] (rmRuns '!' 2 []
      (pyStrip (collapseWs (t ++ List.replicate k c)))) =
    rmRuns '?' 2 [] (rmRuns '!' 2 [] (pyStrip (collapseWs t))) from key]

/-- Claim C9 (amended): `extract_symptoms` is invariant under APPENDING a
run of two or more `!` or `?` to a text that contains neither character and
does not end in whitespace — the cleaner deletes the whole run.  (The
original claim also allowed INSERTING such runs anywhere; that fails when
the run lands next to existing punctuation, because the deleted run splices
the surrounding text: see the counterexample.) -/
theorem punctuation_run_invariance (t : String) (k : Nat) (c : Char)
    (hc : c = '!' ∨ c = '?') (hk : 2 ≤ k)
    (hne : '!' ∉ t.data) (hnq : '?' ∉ t.data)
    (htrail : ∀ ch, t.data.getLast? = some ch → isPySpace ch = false) :
    dpExtractSymptoms (String.mk (t.data ++ List.replicate k c)) =
      dpExtractSymptoms t := by
  unfold dpExtractSymptoms
  rw [show (String.mk (t.data ++ List.replicate k c)).data =
      t.data ++ List.replicate k c from rfl,
    cleanTextL_append_run t.data k c hc hk hne hnq htrail]

/-- Counterexample to C9 as stated: inserting the run `!!` into `fe!ver`
right after its `!` yields `fe!!!ver`; cleaning deletes the merged `!!!`
run and splices the text into `fever`, so the extracted symptom set changes
from empty to `{fever}`. -/
theorem punctuation_insertion_changes_symptoms :
    dpExtractSymptoms (String.mk ("fe!".data ++ "!!".data ++ "ver".data)) ≠
      dpExtractSymptoms (String.mk ("fe!".data ++ "ver".data)) ∧
    dpExtractSymptoms "fe!!!ver" = ["fever"] ∧
    dpExtractSymptoms "fe!ver" = [] :=
  ⟨by decide, by rfl, by rfl⟩

/-- Concrete instance of the amended C9: `fever!!!` and `fever` extract the
same symptom set. -/
theorem punctuation_run_invariance_witness :
    dpExtractSymptoms "fever!!!" = dpExtractSymptoms "fever" ∧
    dpExtractSymptoms "fever" = ["fever"] := by
  constructor
  · have h := punctuation_run_invariance "fever" 3 '!' (Or.inl rfl) (by omega)
      (by decide) (by decide)
      (fun ch hch => by
        rw [show "fever".data.getLast? = some 'r' from rfl] at hch
        rw [← Option.some.inj hch]
        rfl)
    rw [show ("fever!!!" : String) =
      String.mk ("fever".data ++ List.replicate 3 '!') from by decide]
    exact h
  · rfl
